import Mathlib

/-!
Verification of the cricket match simulation engine (`match_engine.py`).

The engine is embedded shallowly:
- Python floats used for probabilities, chemistry and rounding are modelled
  as exact rationals (`ℚ`).
- Player strike rates, which Python stores as `round(x, 2)` floats, are
  stored in two-decimal fixed point: an integer number of hundredths,
  rounded half-to-even exactly as Python's `round`.
- `random.*` draws are modelled as oracle parameters: theorems quantify over
  every possible sequence of draws.
- Python dictionaries returned by the engine are modelled as structures in
  which a key that may be absent is an `Option` field (`none` = key absent).
- Python object references (current batsmen, current bowler, the
  batting/bowling team aliases of `team1`/`team2`) are modelled by ids and
  by a side marker, with updates written through to the owning roster.
-/

/-- Python `str.lower()` (ASCII case folding suffices for the role strings
used by the engine). -/
def lowerStr (s : String) : String := ⟨s.data.map Char.toLower⟩

/-- Python `str.strip()`: drop leading and trailing whitespace. -/
def trimStr (s : String) : String :=
  ⟨((s.data.dropWhile Char.isWhitespace).reverse.dropWhile Char.isWhitespace).reverse⟩

/-- Insert `a` in front of the first element `b` with `le a b`; used to build
a stable sort mirroring Python's stable `sorted`. -/
def insertLE {α : Type} (le : α → α → Bool) (a : α) : List α → List α
  | [] => [a]
  | b :: l => if le a b then a :: b :: l else b :: insertLE le a l

/-- Stable insertion sort, modelling Python's `sorted(..., key=...)`. -/
def isort {α : Type} (le : α → α → Bool) : List α → List α
  | [] => []
  | a :: l => insertLE le a (isort le l)

/-- Python `max(lo, min(hi, x))`, the clamping idiom of `simulate_ball`. -/
def clampProb (lo hi x : ℚ) : ℚ := max lo (min hi x)

/-- Round `n / d` (with `d > 0`) to the nearest integer, ties to even:
the exact-arithmetic content of Python's banker's rounding `round`. -/
def roundHalfEvenDiv (n : ℤ) (d : ℕ) : ℤ :=
  let q := n.fdiv d
  let r := n.fmod d
  if 2 * r < d then q
  else if (d : ℤ) < 2 * r then q + 1
  else if q % 2 = 0 then q else q + 1

/-- Python `round(x, 2)` on an exact rational: two-decimal rounding, ties to
even. Used on the specification side to state what the fixed-point strike
rate stored by the engine represents. -/
def roundTo2 (x : ℚ) : ℚ :=
  (((if x * 100 - ⌊x * 100⌋ < 1/2 then ⌊x * 100⌋
     else if 1/2 < x * 100 - ⌊x * 100⌋ then ⌊x * 100⌋ + 1
     else if ⌊x * 100⌋ % 2 = 0 then ⌊x * 100⌋ else ⌊x * 100⌋ + 1) : ℤ) : ℚ) / 100

/-! ## Ball outcome probability model (`CricketMatch.simulate_ball`, lines 374-517)

The skill pipeline (lines 374-429) produces a real-valued `skill_diff`; the
probability shaping that follows is a function of `skill_diff`, the match
phase string and the two strategy-focus strings.  We embed that shaping
exactly; theorems quantify over every rational `skill_diff`, covering every
value the skill pipeline can produce. -/

/-- The seven probability variables of `simulate_ball` (`dot_prob`,
`runs_1_prob`, `runs_2_prob`, `runs_3_prob`, `runs_1_3_prob`,
`boundary_4_prob`, `boundary_6_prob`, `wicket_prob`). -/
structure BallProbs where
  dot : ℚ
  runs1 : ℚ
  runs2 : ℚ
  runs3 : ℚ
  runs13 : ℚ
  four : ℚ
  six : ℚ
  wicket : ℚ
deriving Repr, DecidableEq

/-- Base probabilities (lines 431-438). -/
def baseProbs (skillDiff : ℚ) : BallProbs :=
  let r1 : ℚ := 25/100
  let r2 : ℚ := 12/100
  let r3 : ℚ := 3/100
  { dot := 40/100 - skillDiff * (3/1000)
    runs1 := r1
    runs2 := r2
    runs3 := r3
    runs13 := r1 + r2 + r3
    four := 10/100 + skillDiff * (2/1000)
    six := 5/100 + skillDiff * (2/1000)
    wicket := 5/100 - skillDiff * (1/1000) }

/-- `CricketMatch.get_match_phase` (lines 344-359). -/
def getMatchPhase (totalOvers overNumber : ℕ) : String :=
  if overNumber < 6 then "powerplay"
  else if (totalOvers : ℤ) - 4 ≤ (overNumber : ℤ) then "death_overs"
  else "middle_overs"

/-- Match-phase adjustments (lines 440-462).  In the powerplay branch the
source does not recompute `runs_1_3_prob`; the middle/death branches do. -/
def phaseAdjust (phase : String) (p : BallProbs) : BallProbs :=
  if phase = "powerplay" then
    { p with dot := p.dot - 5/100, four := p.four + 8/100, six := p.six + 2/100,
             wicket := p.wicket + 1/100 }
  else if phase = "middle_overs" then
    let r1 := p.runs1 + 5/100
    let r2 := p.runs2 + 2/100
    { p with runs1 := r1, runs2 := r2, four := p.four - 3/100, six := p.six - 2/100,
             runs13 := r1 + r2 + p.runs3 }
  else if phase = "death_overs" then
    let r1 := p.runs1 - 5/100
    { p with dot := p.dot - 10/100, runs1 := r1, four := p.four + 5/100,
             six := p.six + 8/100, wicket := p.wicket + 2/100,
             runs13 := r1 + p.runs2 + p.runs3 }
  else p

/-- Batting-focus adjustments (lines 464-480). -/
def battingFocusAdjust (focus : String) (p : BallProbs) : BallProbs :=
  if focus = "attacking" then
    { p with dot := p.dot - 10/100, runs13 := p.runs13 - 5/100,
             four := p.four + 8/100, six := p.six + 7/100, wicket := p.wicket + 3/100 }
  else if focus = "defensive" then
    { p with dot := p.dot + 10/100, runs13 := p.runs13 + 5/100,
             four := p.four - 5/100, six := p.six - 5/100, wicket := p.wicket - 2/100 }
  else p

/-- Bowling-focus adjustments (lines 482-493). -/
def bowlingFocusAdjust (focus : String) (p : BallProbs) : BallProbs :=
  if focus = "wicket-taking" then
    { p with wicket := p.wicket + 5/100, dot := p.dot - 3/100,
             four := p.four + 2/100, six := p.six + 1/100 }
  else if focus = "economy" then
    { p with wicket := p.wicket - 2/100, dot := p.dot + 8/100,
             four := p.four - 4/100, six := p.six - 2/100 }
  else p

/-- Clamping of the five outcome probabilities to their bands (lines 495-500). -/
def clampProbs (p : BallProbs) : BallProbs :=
  { p with dot := clampProb (20/100) (60/100) p.dot
           runs13 := clampProb (25/100) (50/100) p.runs13
           four := clampProb (5/100) (20/100) p.four
           six := clampProb (1/100) (15/100) p.six
           wicket := clampProb (2/100) (15/100) p.wicket }

/-- `total_prob` (line 503). -/
def totalProb (p : BallProbs) : ℚ := p.dot + p.runs13 + p.four + p.six + p.wicket

/-- Normalization of the five probabilities by `total_prob` (lines 502-508). -/
def normalizeProbs (p : BallProbs) : BallProbs :=
  let t := totalProb p
  { p with dot := p.dot / t, runs13 := p.runs13 / t, four := p.four / t,
           six := p.six / t, wicket := p.wicket / t }

/-- The clamped (pre-normalization) probabilities used by one `simulate_ball`
call, as a function of skill differential, phase and strategy foci. -/
def clampedBallProbs (skillDiff : ℚ) (phase battingFocus bowlingFocus : String) :
    BallProbs :=
  clampProbs (bowlingFocusAdjust bowlingFocus
    (battingFocusAdjust battingFocus (phaseAdjust phase (baseProbs skillDiff))))

/-- The final (normalized) probabilities used by one `simulate_ball` call. -/
def finalBallProbs (skillDiff : ℚ) (phase battingFocus bowlingFocus : String) :
    BallProbs :=
  normalizeProbs (clampedBallProbs skillDiff phase battingFocus bowlingFocus)

/-! ## Player (`match_engine.py` lines 16-99)

Identity and rating fields kept are those the simulation reads; the six
skill sub-attributes only feed `skill_diff`, which the probability model
above quantifies over.  `strike_rate` is stored in two-decimal fixed point
(an integer number of hundredths), the exact-arithmetic rendering of
Python's `round(x, 2)` float. -/

structure Player where
  id : ℤ
  name : String
  role : String
  position : ℤ
  batting_ovr : ℤ
  bowling_ovr : ℤ
  runs : ℕ
  balls_faced : ℕ
  wickets : ℕ
  balls_bowled : ℕ
  runs_conceded : ℕ
  is_out : Bool
  out_method : Option String
  bowler_who_dismissed : Option String
  fielder_who_dismissed : Option String
  fours : ℕ
  sixes : ℕ
  overs_bowled : ℕ
  maidens : ℕ
  strike_rate : ℤ
deriving Repr, DecidableEq

/-- `Player.reset_match_stats` (lines 64-79). -/
def Player.resetStats (p : Player) : Player :=
  { p with runs := 0, balls_faced := 0, wickets := 0, balls_bowled := 0,
           runs_conceded := 0, is_out := false, out_method := none,
           bowler_who_dismissed := none, fielder_who_dismissed := none,
           fours := 0, sixes := 0, overs_bowled := 0, maidens := 0,
           strike_rate := 0 }

/-- The strike-rate formula of lines 93 and 99:
`round(runs / balls_faced * 100, 2) if balls_faced > 0 else 0.0`,
in hundredths (`runs / balls * 100 * 100 = runs * 10000 / balls`). -/
def strikeRateFor (runs balls : ℕ) : ℤ :=
  if 0 < balls then roundHalfEvenDiv ((runs : ℤ) * 10000) balls else 0

/-- `Player.add_runs` (lines 81-93). -/
def Player.addRuns (p : Player) (runs : ℕ) : Player :=
  let newRuns := p.runs + runs
  { p with runs := newRuns,
           fours := if runs = 4 then p.fours + 1 else p.fours,
           sixes := if runs ≠ 4 ∧ runs = 6 then p.sixes + 1 else p.sixes,
           strike_rate := strikeRateFor newRuns p.balls_faced }

/-- `Player.add_ball` (lines 95-99). -/
def Player.addBall (p : Player) : Player :=
  { p with balls_faced := p.balls_faced + 1,
           strike_rate := strikeRateFor p.runs (p.balls_faced + 1) }

/-! ## Team (`match_engine.py` lines 101-225) -/

structure Team where
  id : ℤ
  name : String
  owner_id : ℤ
  players : List Player
  score : ℕ
  wickets : ℕ
  overs : ℕ
  balls : ℕ
  chemistry : ℚ
deriving Repr, DecidableEq

/-- Sort key component: `p.position if p.position is not None and p.position > 0 else 999`. -/
def posKey (p : Player) : ℤ := if 0 < p.position then p.position else 999

/-- Role priority used by `get_batting_order`:
batsman 0, all-rounder 1, everyone else 2. -/
def rolePriority (role : String) : ℕ :=
  if lowerStr role = "batsman" then 0
  else if lowerStr role = "all-rounder" then 1 else 2

/-- Lexicographic comparison on the batting-order sort key
`(position-or-999, role priority, -batting_ovr)`. -/
def battingKeyLE (a b : Player) : Bool :=
  decide (posKey a < posKey b ∨ (posKey a = posKey b ∧
    (rolePriority a.role < rolePriority b.role ∨ (rolePriority a.role = rolePriority b.role ∧
      b.batting_ovr ≤ a.batting_ovr))))

/-- `Team.get_batting_order` (lines 132-143): stable sort of the roster. -/
def Team.getBattingOrder (t : Team) : List Player :=
  isort battingKeyLE t.players

/-- `Team.get_bowling_order` (lines 145-152): bowlers and all-rounders by
descending bowling rating. -/
def Team.getBowlingOrder (t : Team) : List Player :=
  isort (fun a b => decide (b.bowling_ovr ≤ a.bowling_ovr))
    (t.players.filter (fun p =>
      lowerStr p.role = "bowler" ∨ lowerStr p.role = "all-rounder" ∨
        lowerStr p.role = "all rounder"))

/-- Role classification of `calculate_chemistry` (lines 169-178), applied to
`player.role.lower().strip()`. -/
def roleIsBatsman (r : String) : Bool :=
  trimStr (lowerStr r) = "batsman" ∨ trimStr (lowerStr r) = "batter"

def roleIsBowler (r : String) : Bool :=
  trimStr (lowerStr r) = "bowler"

def roleIsAllRounder (r : String) : Bool :=
  trimStr (lowerStr r) = "all-rounder" ∨ trimStr (lowerStr r) = "all rounder" ∨
    trimStr (lowerStr r) = "allrounder"

def roleIsKeeper (r : String) : Bool :=
  trimStr (lowerStr r) = "wicket keeper" ∨ trimStr (lowerStr r) = "wicketkeeper" ∨
    trimStr (lowerStr r) = "keeper"

def Team.countBatsmen (t : Team) : ℕ := t.players.countP (fun p => roleIsBatsman p.role)
def Team.countBowlers (t : Team) : ℕ := t.players.countP (fun p => roleIsBowler p.role)
def Team.countAllRounders (t : Team) : ℕ :=
  t.players.countP (fun p => roleIsAllRounder p.role)
def Team.countKeepers (t : Team) : ℕ := t.players.countP (fun p => roleIsKeeper p.role)

/-- `Team.calculate_chemistry` (lines 154-225).  Returns the chemistry value
together with the updated team (the source stores the value on `self` and
returns it). -/
def Team.calculateChemistry (t : Team) : ℚ × Team :=
  if t.players.length < 5 then
    (1/2, { t with chemistry := 1/2 })
  else
    let nBat := t.countBatsmen
    let nBowl := t.countBowlers
    let nAll := t.countAllRounders
    let nWk := t.countKeepers
    let c : ℚ := 1
    let c := if nBat < 3 then c - 20/100
             else if 6 < nBat then c - 15/100 * ((nBat : ℚ) - 6) else c
    let c := if nBowl < 3 then c - 20/100
             else if 6 < nBowl then c - 15/100 * ((nBowl : ℚ) - 6) else c
    let c := if nWk < 1 then c - 30/100
             else if 2 < nWk then c - 10/100 * ((nWk : ℚ) - 2) else c
    let c := if nAll < 1 then c - 15/100
             else if 3 < nAll then c - 10/100 * ((nAll : ℚ) - 3) else c
    let total := nBat + nBowl + nAll + nWk
    let c := if total ≠ 11 then c - 10/100 * ((((11 : ℤ) - total).natAbs : ℕ) : ℚ) else c
    let c := if 4 ≤ nBat ∧ nBat ≤ 5 ∧ 4 ≤ nBowl ∧ nBowl ≤ 5 ∧
                1 ≤ nAll ∧ nAll ≤ 2 ∧ nWk = 1 ∧ total = 11 then c + 10/100 else c
    let c := max (1/2) (min c (3/2))
    (c, { t with chemistry := c })

/-! ## Match state (`CricketMatch`, lines 227-331)

`current_batsmen` and `current_bowler` hold object references in Python; we
model them as player ids resolved against the owning roster, and the
`batting_team`/`bowling_team` aliases of `team1`/`team2` as side markers
(`true` = `team1`). -/

structure FallOfWicket where
  score : ℕ
  wicket : ℕ
  over : ℕ
  ball : ℕ
  player_out : String
  bowler : String
  dismissal_type : String
  partnership : ℕ
  partnership_balls : ℕ
deriving Repr, DecidableEq

structure MatchState where
  team1 : Team
  team2 : Team
  total_overs : ℕ
  match_type : String
  match_id : Option String
  current_innings : ℕ
  team1_score : ℕ
  team1_wickets : ℕ
  team1_overs : ℕ
  team1_balls : ℕ
  team2_score : ℕ
  team2_wickets : ℕ
  team2_overs : ℕ
  team2_balls : ℕ
  current_batsmen : List ℤ
  current_bowler : Option ℤ
  target_score : Option ℕ
  over_start_runs : ℕ
  batting_side : Option Bool
  bowling_side : Option Bool
  current_partnership : ℕ
  partnership_balls : ℕ
  fall_of_wickets : List FallOfWicket
deriving Repr, DecidableEq

/-- `CricketMatch.reset_match_stats` (lines 259-298). -/
def MatchState.resetMatchStats (m : MatchState) : MatchState :=
  { m with
    team1 := { m.team1 with score := 0, wickets := 0, overs := 0, balls := 0,
                            players := m.team1.players.map Player.resetStats }
    team2 := { m.team2 with score := 0, wickets := 0, overs := 0, balls := 0,
                            players := m.team2.players.map Player.resetStats }
    current_innings := 0
    team1_score := 0, team1_wickets := 0, team1_overs := 0, team1_balls := 0
    team2_score := 0, team2_wickets := 0, team2_overs := 0, team2_balls := 0
    current_batsmen := []
    current_bowler := none
    target_score := none
    over_start_runs := 0
    batting_side := none
    bowling_side := none
    current_partnership := 0
    partnership_balls := 0
    fall_of_wickets := [] }

/-- Read a team by side marker (`true` = `team1`). -/
def MatchState.getSide (m : MatchState) (side : Bool) : Team :=
  if side then m.team1 else m.team2

/-- Write a team by side marker. -/
def MatchState.setSide (m : MatchState) (side : Bool) (t : Team) : MatchState :=
  if side then { m with team1 := t } else { m with team2 := t }

/-- The team currently batting, if an innings is set up. -/
def MatchState.battingTeam (m : MatchState) : Option Team :=
  m.batting_side.map m.getSide

/-- The team currently bowling, if an innings is set up. -/
def MatchState.bowlingTeam (m : MatchState) : Option Team :=
  m.bowling_side.map m.getSide

/-- Mutate the batting team in place (Python mutates through the
`batting_team` reference, which aliases `team1` or `team2`). -/
def MatchState.updBatting (m : MatchState) (f : Team → Team) : MatchState :=
  match m.batting_side with
  | none => m
  | some s => m.setSide s (f (m.getSide s))

/-- Batting-team counters with the source's `if self.batting_team else 0`
fallbacks (used at lines 892-895 and 929-932). -/
def MatchState.battingScore (m : MatchState) : ℕ :=
  (m.battingTeam.map Team.score).getD 0

def MatchState.battingWickets (m : MatchState) : ℕ :=
  (m.battingTeam.map Team.wickets).getD 0

def MatchState.battingOvers (m : MatchState) : ℕ :=
  (m.battingTeam.map Team.overs).getD 0

def MatchState.battingBallsCount (m : MatchState) : ℕ :=
  (m.battingTeam.map Team.balls).getD 0

/-- First player of a roster with the given id (object identity, rosters
carry distinct ids). -/
def findPlayer (l : List Player) (pid : ℤ) : Option Player :=
  l.find? (fun p => p.id = pid)

/-- Replace the roster entry with `p`'s id by `p` (a write through a Python
object reference). -/
def updatePlayer (l : List Player) (p : Player) : List Player :=
  l.map (fun q => if q.id = p.id then p else q)

/-- `CricketMatch.setup_innings` (lines 311-331). -/
def MatchState.setupInnings (m : MatchState) (battingIsTeam1 : Bool)
    (inningsNumber : ℕ) : MatchState :=
  let batting := m.getSide battingIsTeam1
  let bowling := m.getSide (!battingIsTeam1)
  { m with current_innings := inningsNumber
           batting_side := some battingIsTeam1
           bowling_side := some (!battingIsTeam1)
           current_batsmen := (batting.getBattingOrder.take 2).map Player.id
           current_bowler := bowling.getBowlingOrder.head?.map Player.id }

/-! ## Match result and settlement (lines 759-856) -/

/-- The result dictionary built by `get_match_result`/`complete_match`.
`result_type`, `team1_reward`, `team2_reward` are keys that only some code
paths add, hence `Option` (`none` = key absent from the dict). -/
structure ResultDict where
  winner : String
  winner_id : Option ℤ
  winner_owner_id : Option ℤ
  margin_type : String
  margin : ℤ
  team1_score : ℕ
  team1_wickets : ℕ
  team1_overs : ℕ × ℕ
  team2_score : ℕ
  team2_wickets : ℕ
  team2_overs : ℕ × ℕ
  match_type : String
  match_id : Option String
  result_type : Option String
  team1_reward : Option ℤ
  team2_reward : Option ℤ
deriving Repr, DecidableEq

/-- The common score fields of the result dictionary (identical in the three
branches of `get_match_result`).  The overs strings
`f"{overs}.{balls % 6}"` are modelled as pairs. -/
def MatchState.scoreFields (m : MatchState) : ResultDict :=
  { winner := "", winner_id := none, winner_owner_id := none,
    margin_type := "", margin := 0,
    team1_score := m.team1_score, team1_wickets := m.team1_wickets,
    team1_overs := (m.team1_overs, m.team1_balls % 6),
    team2_score := m.team2_score, team2_wickets := m.team2_wickets,
    team2_overs := (m.team2_overs, m.team2_balls % 6),
    match_type := m.match_type, match_id := m.match_id,
    result_type := none, team1_reward := none, team2_reward := none }

/-- `CricketMatch.get_match_result` (lines 769-825). -/
def MatchState.getMatchResult (m : MatchState) : String × ResultDict :=
  if m.team2_score < m.team1_score then
    ("team1_win",
     { m.scoreFields with
         winner := m.team1.name, winner_id := some m.team1.id,
         winner_owner_id := some m.team1.owner_id,
         margin_type := "runs", margin := (m.team1_score : ℤ) - m.team2_score })
  else if m.team1_score < m.team2_score then
    ("team2_win_wickets",
     { m.scoreFields with
         winner := m.team2.name, winner_id := some m.team2.id,
         winner_owner_id := some m.team2.owner_id,
         margin_type := "wickets", margin := 10 - (m.team2_wickets : ℤ) })
  else
    ("tie",
     { m.scoreFields with
         winner := "Tie", winner_id := none, winner_owner_id := none,
         margin_type := "tie", margin := 0 })

/-- `CricketMatch.complete_match` (lines 827-856).  The three `randint`
draws (`winner_coins`, `loser_coins`, `tie_coins`) are oracle parameters;
the match-end callback, when present, receives exactly the returned dict. -/
def MatchState.completeMatch (m : MatchState)
    (winnerCoins loserCoins tieCoins : ℤ) (matchEndPresent : Bool) :
    ResultDict × List ResultDict :=
  let rt := m.getMatchResult.1
  let rd := { m.getMatchResult.2 with result_type := some rt }
  let rd :=
    if rt = "team1_win" then
      { rd with team1_reward := some winnerCoins, team2_reward := some loserCoins }
    else if rt = "team2_win_wickets" ∨ rt = "team2_win_runs" then
      { rd with team1_reward := some loserCoins, team2_reward := some winnerCoins }
    else
      { rd with team1_reward := some tieCoins, team2_reward := some tieCoins }
  (rd, if matchEndPresent then [rd] else [])

/-! ## Ball-by-ball simulation (`simulate_match` / `_simulate_innings` /
`simulate_ball`, lines 858-1204)

The random draws of `simulate_ball` (outcome roll, 1-3 run split, dismissal
type, fielder) are abstracted into a per-ball `BallOutcome` oracle, and the
per-over `random.choice` of the next bowler into an index oracle; theorems
quantify over all oracles, hence over every sequence of draws.  Events
emitted through the `send_message_func` and `update_scorecard_func`
callbacks are recorded as `Emission`s (payloads abridged to the fields the
specification constrains; commentary strings are cosmetic). -/

inductive BallOutcome where
  | dot
  | runs (n : ℕ)
  | boundary4
  | boundary6
  | wicket (dismissal : String) (fielder : Option String)
deriving Repr, DecidableEq

inductive MatchEvent where
  | errorMsg (msg : String)
  | matchStart
  | inningsBreak
  | inningsStart (target : ℕ)
  | overStart (over : ℕ) (bowler : String)
  | ballEvent (o : BallOutcome) (over ball : ℕ)
  | allOutEvent (over ball : ℕ)
  | targetReachedEvent (over ball : ℕ)
  | newBatsman (nm : String) (position : ℕ)
deriving Repr, DecidableEq

/-- One callback invocation point: `msg` for `send_message_func` call sites,
`card` for `update_scorecard_func` call sites (with the `detailed` flag of
`_get_scorecard`). -/
inductive Emission where
  | msg (e : MatchEvent)
  | card (detailed : Bool)
deriving Repr, DecidableEq

def Emission.isMsg : Emission → Bool
  | .msg _ => true
  | .card _ => false

/-- The current bowler resolved against the bowling roster. -/
def MatchState.currentBowlerPlayer (m : MatchState) : Option Player :=
  match m.current_bowler, m.bowling_side with
  | some bid, some s => findPlayer (m.getSide s).players bid
  | _, _ => none

def MatchState.currentBowlerName (m : MatchState) : String :=
  (m.currentBowlerPlayer.map Player.name).getD ""

def MatchState.currentBowlerConceded (m : MatchState) : ℕ :=
  (m.currentBowlerPlayer.map Player.runs_conceded).getD 0

/-- Mutate the current bowler through its object reference (write the
updated player back into the bowling roster). -/
def MatchState.updBowler (m : MatchState) (f : Player → Player) : MatchState :=
  match m.current_bowler, m.bowling_side with
  | some bid, some s =>
      match findPlayer (m.getSide s).players bid with
      | some p =>
          m.setSide s { m.getSide s with players := updatePlayer (m.getSide s).players (f p) }
      | none => m
  | _, _ => m

/-- The stats effect of `simulate_ball` (lines 361-616): the on-strike
batsman (`current_batsmen[0]`) always receives `add_ball()`; runs and
dismissal state are applied according to the sampled outcome.  Returns
`none` for the source's error dict when no batsman or bowler is available,
else the outcome with the striker's name. -/
def MatchState.simulateBallStats (m : MatchState) (o : BallOutcome) :
    Option (BallOutcome × String) × MatchState :=
  match m.current_batsmen with
  | [] => (none, m)
  | bid :: _ =>
    match m.current_bowler with
    | none => (none, m)
    | some _ =>
      match m.batting_side with
      | none => (none, m)
      | some s =>
        match findPlayer (m.getSide s).players bid with
        | none => (none, m)
        | some batsman =>
          let b1 := batsman.addBall
          let b2 := match o with
            | .dot => b1
            | .runs n => b1.addRuns n
            | .boundary4 => b1.addRuns 4
            | .boundary6 => b1.addRuns 6
            | .wicket d fielder =>
                { b1 with is_out := true, out_method := some d,
                          bowler_who_dismissed := some m.currentBowlerName,
                          fielder_who_dismissed := fielder }
          (some (o, batsman.name),
           m.setSide s { m.getSide s with players := updatePlayer (m.getSide s).players b2 })

/-- Striker/non-striker swap (lines 1052-1053 and 1201). -/
def swapBatsmen (m : MatchState) : MatchState :=
  { m with current_batsmen :=
      match m.current_batsmen with
      | a :: b :: rest => b :: a :: rest
      | l => l }

/-- Line 1112-1115: not-yet-out players of the batting order who are not
currently at the crease. -/
def MatchState.availableBatsmen (m : MatchState) : List Player :=
  match m.batting_side with
  | none => []
  | some s =>
      (m.getSide s).getBattingOrder.filter
        (fun p => !p.is_out && !(m.current_batsmen.contains p.id))

/-- Resolve a current batsman's name through the batting roster. -/
def MatchState.batsmanNameOf (m : MatchState) (bid : ℤ) : String :=
  match m.batting_side with
  | none => ""
  | some s => ((findPlayer (m.getSide s).players bid).map Player.name).getD ""

/-- Lines 1122-1128: locate the out batsman among `current_batsmen` by name
and replace it by the incoming batsman. -/
def MatchState.replaceOutBatsman (m : MatchState) (outName : String) (newId : ℤ) :
    MatchState :=
  let idx := (m.current_batsmen.map m.batsmanNameOf).findIdx (fun nm => nm == outName)
  { m with current_batsmen := m.current_batsmen.set idx newId }

/-- Result of one ball of the inner loop: the updated state, the
innings-ending flags (`allOut` with its `noBatsman` cause, `targetReached`)
and the emissions of that ball. -/
structure BallStep where
  state : MatchState
  allOut : Bool
  noBatsman : Bool
  targetReached : Bool
  emits : List Emission
deriving Repr, DecidableEq

/-- Lines 1156-1170: the end-of-ball target check
(`if target and self.batting_team.score >= target`). -/
def ballTargetCheck (target : Option ℕ) (over ball : ℕ) (m : MatchState)
    (emits : List Emission) : BallStep :=
  match target with
  | some t =>
      if t ≠ 0 ∧ t ≤ m.battingScore then
        ⟨m, false, false, true, emits ++ [.msg (.targetReachedEvent over ball)]⟩
      else ⟨m, false, false, false, emits⟩
  | none => ⟨m, false, false, false, emits⟩

/-- One iteration of the ball loop (lines 1012-1174). -/
def ballIter (target : Option ℕ) (over ball : ℕ) (o : BallOutcome)
    (m : MatchState) : BallStep :=
  let m := m.updBatting (fun t => { t with balls := over * 6 + ball })
  match m.simulateBallStats o with
  | (none, m1) => ⟨m1, false, false, false, [.msg (.errorMsg "No batsmen or bowler available")]⟩
  | (some (oc, strikerName), m1) =>
    let m2 := { m1 with partnership_balls := m1.partnership_balls + 1 }
    let m3 := match oc with
      | .dot => m2.updBowler (fun p => { p with balls_bowled := p.balls_bowled + 1 })
      | _ => m2
    let emits := [Emission.msg (.ballEvent oc over ball)]
    match oc with
    | .dot => ballTargetCheck target over ball m3 emits
    | .runs n =>
        let m4 := if n % 2 = 1 then swapBatsmen m3 else m3
        let m5 := m4.updBatting (fun t => { t with score := t.score + n })
        let m6 := { m5 with current_partnership := m5.current_partnership + n }
        let m7 := m6.updBowler (fun p =>
          { p with runs_conceded := p.runs_conceded + n, balls_bowled := p.balls_bowled + 1 })
        ballTargetCheck target over ball m7 emits
    | .boundary4 =>
        let m5 := m3.updBatting (fun t => { t with score := t.score + 4 })
        let m6 := { m5 with current_partnership := m5.current_partnership + 4 }
        let m7 := m6.updBowler (fun p =>
          { p with runs_conceded := p.runs_conceded + 4, balls_bowled := p.balls_bowled + 1 })
        ballTargetCheck target over ball m7 emits
    | .boundary6 =>
        let m5 := m3.updBatting (fun t => { t with score := t.score + 6 })
        let m6 := { m5 with current_partnership := m5.current_partnership + 6 }
        let m7 := m6.updBowler (fun p =>
          { p with runs_conceded := p.runs_conceded + 6, balls_bowled := p.balls_bowled + 1 })
        ballTargetCheck target over ball m7 emits
    | .wicket d _ =>
        let m5 := m3.updBatting (fun t => { t with wickets := t.wickets + 1 })
        let m6 := m5.updBowler (fun p =>
          { p with wickets := p.wickets + 1, balls_bowled := p.balls_bowled + 1 })
        let m7 := { m6 with fall_of_wickets := m6.fall_of_wickets ++
          [{ score := m6.battingScore, wicket := m6.battingWickets,
             over := over, ball := ball, player_out := strikerName,
             bowler := m6.currentBowlerName, dismissal_type := d,
             partnership := m6.current_partnership,
             partnership_balls := m6.partnership_balls }] }
        if 10 ≤ m7.battingWickets then
          ⟨m7, true, false, false, emits ++ [.msg (.allOutEvent over ball)]⟩
        else
          match m7.availableBatsmen with
          | [] => ⟨m7, true, true, false, emits ++ [.msg (.allOutEvent over ball)]⟩
          | newB :: _ =>
              let m8 := m7.replaceOutBatsman strikerName newB.id
              let pos :=
                (match m8.batting_side with
                 | none => 0
                 | some s =>
                     (m8.getSide s).getBattingOrder.findIdx (fun p => p.id == newB.id)) + 1
              let emits := emits ++ [Emission.msg (.newBatsman newB.name pos)]
              let m9 := { m8 with current_partnership := 0, partnership_balls := 0 }
              ballTargetCheck target over ball m9 emits

/-- The 6-ball loop of one over (`for ball in range(6)`), with early exit on
an innings-ending flag. -/
def overBalls (target : Option ℕ) (oracle : ℕ → BallOutcome) (over : ℕ) :
    ℕ → ℕ → MatchState → List Emission → BallStep
  | 0, _, m, acc => ⟨m, false, false, false, acc⟩
  | Nat.succ k, ball, m, acc =>
      let st := ballIter target over ball (oracle (over * 6 + ball)) m
      if st.allOut || st.targetReached then
        ⟨st.state, st.allOut, st.noBatsman, st.targetReached, acc ++ st.emits⟩
      else
        overBalls target oracle over k (ball + 1) st.state (acc ++ st.emits)

/-- Bowler rotation at the start of an over (lines 987-994): prefer a
bowler/all-rounder other than the current bowler, fall back to any other
player, keep the current bowler if no alternative; `random.choice` is the
index oracle reduced modulo the candidate count. -/
def chooseBowler (choice : ℕ) (m : MatchState) : MatchState :=
  match m.bowling_side with
  | none => m
  | some s =>
    let roster := (m.getSide s).players
    let bowlers := roster.filter (fun p =>
      decide ((p.role = "Bowler" ∨ p.role = "All-rounder") ∧ m.current_bowler ≠ some p.id))
    let bowlers :=
      if bowlers.isEmpty then
        roster.filter (fun p => decide (m.current_bowler ≠ some p.id))
      else bowlers
    match bowlers with
    | [] => m
    | b :: bs =>
        { m with current_bowler := some (((b :: bs).getD (choice % (b :: bs).length) b).id) }

/-- One iteration of the over loop (lines 983-1201): set the over counter,
rotate the bowler, run six balls, book the bowler's over and maiden, emit
the periodic scorecards, and swap the batsmen unless the innings ended. -/
def overIter (target : Option ℕ) (oracle : ℕ → BallOutcome)
    (bowlerChoice : ℕ → ℕ) (over : ℕ) (m : MatchState) : BallStep :=
  let m1 := m.updBatting (fun t => { t with overs := over })
  let m2 := chooseBowler (bowlerChoice over) m1
  let m3 := { m2 with over_start_runs := m2.currentBowlerConceded }
  let emits := [Emission.msg (.overStart (over + 1) m3.currentBowlerName)]
  let st := overBalls target oracle over 6 0 m3 emits
  let m4 := st.state.updBowler (fun p => { p with overs_bowled := p.overs_bowled + 1 })
  let m5 := if m4.currentBowlerConceded - m4.over_start_runs = 0 then
              m4.updBowler (fun p => { p with maidens := p.maidens + 1 })
            else m4
  let emits := st.emits ++
    (if (over + 1) % 3 = 0 then [Emission.card true]
     else if (over + 1) % 2 = 0 then [Emission.card false] else [])
  if st.allOut || st.targetReached then
    ⟨m5, st.allOut, st.noBatsman, st.targetReached, emits⟩
  else
    ⟨swapBatsmen m5, false, false, false, emits⟩

/-- Result of an innings: final state, the flags that ended it, the number
of the first over NOT started (so `oversDone = total_overs` means every
over ran to completion), and the emissions. -/
structure InnRun where
  state : MatchState
  allOut : Bool
  noBatsman : Bool
  targetReached : Bool
  oversDone : ℕ
  emits : List Emission
deriving Repr, DecidableEq

/-- The over loop (`for over in range(self.total_overs)`), with early exit
on an innings-ending flag. -/
def inningsLoop (target : Option ℕ) (oracle : ℕ → BallOutcome)
    (bowlerChoice : ℕ → ℕ) : ℕ → ℕ → MatchState → List Emission → InnRun
  | 0, over, m, acc => ⟨m, false, false, false, over, acc⟩
  | Nat.succ k, over, m, acc =>
      let st := overIter target oracle bowlerChoice over m
      if st.allOut || st.targetReached then
        ⟨st.state, st.allOut, st.noBatsman, st.targetReached, over + 1, acc ++ st.emits⟩
      else inningsLoop target oracle bowlerChoice k (over + 1) st.state (acc ++ st.emits)

/-- `CricketMatch._simulate_innings` (lines 944-1204): guards, batsman and
bowler initialization, opening scorecard emission, then the over loop. -/
def MatchState.simulateInnings (m : MatchState) (oracle : ℕ → BallOutcome)
    (bowlerChoice : ℕ → ℕ) (target : Option ℕ) : InnRun :=
  match m.batting_side, m.bowling_side with
  | some bs, some ws =>
    if (m.getSide bs).players.length < 2 || (m.getSide ws).players.length < 1 then
      ⟨m, false, false, false, 0, [.msg (.errorMsg "Not enough players for the match")]⟩
    else
      let m1 := if m.current_batsmen.length < 2 then
                  { m with current_batsmen := ((m.getSide bs).players.take 2).map Player.id }
                else m
      let m2 := if m1.current_bowler.isNone then
                  let bowlers := (m1.getSide ws).players.filter
                    (fun p => p.role == "Bowler" || p.role == "All-rounder")
                  let bowlers := if bowlers.isEmpty then (m1.getSide ws).players else bowlers
                  { m1 with current_bowler := bowlers.head?.map Player.id }
                else m1
      inningsLoop target oracle bowlerChoice m2.total_overs 0 m2 [Emission.card false]
  | _, _ => ⟨m, false, false, false, 0, [.msg (.errorMsg "Invalid teams for innings")]⟩

/-- Result of a full `simulate_match` call: the returned dict, the final
state, the emission points, and the dicts passed to `match_end_func`. -/
structure MatchRun where
  result : ResultDict
  state : MatchState
  emits : List Emission
  matchEndCalls : List ResultDict
deriving Repr, DecidableEq

/-- The state-and-emissions part of `CricketMatch.simulate_match` with
`return_results=False` (lines 871-932): reset, two innings with the second
chasing `team1_score + 1`, and the score snapshots. -/
def MatchState.simulateMatchCore (m0 : MatchState)
    (oracle1 oracle2 : ℕ → BallOutcome) (bowlerChoice1 bowlerChoice2 : ℕ → ℕ) :
    MatchState × List Emission :=
  let m := m0.resetMatchStats
  let m := m.setupInnings true 1
  let emits := [Emission.msg .matchStart]
  let r1 := m.simulateInnings oracle1 bowlerChoice1 none
  let m := r1.state
  let emits := emits ++ r1.emits
  let m := { m with team1_score := m.battingScore, team1_wickets := m.battingWickets,
                    team1_overs := m.battingOvers, team1_balls := m.battingBallsCount }
  let emits := emits ++ [Emission.msg .inningsBreak]
  let m := m.setupInnings false 2
  let target := m.team1_score + 1
  let m := { m with target_score := some target }
  let emits := emits ++ [Emission.msg (.inningsStart target)]
  let r2 := m.simulateInnings oracle2 bowlerChoice2 (some target)
  let m := r2.state
  let emits := emits ++ r2.emits
  let m := { m with team2_score := m.battingScore, team2_wickets := m.battingWickets,
                    team2_overs := m.battingOvers, team2_balls := m.battingBallsCount }
  (m, emits)

/-- `CricketMatch.simulate_match` with `return_results=False`
(lines 871-942): the core simulation, then result shaping and the match-end
callback.  `result_type` is only added to the returned dict when
`match_end_func` is present (lines 938-940), and the dict passed to the
callback is the returned dict itself. -/
def MatchState.simulateMatchRun (m0 : MatchState) (matchEndPresent : Bool)
    (oracle1 oracle2 : ℕ → BallOutcome) (bowlerChoice1 bowlerChoice2 : ℕ → ℕ) :
    MatchRun :=
  let core := m0.simulateMatchCore oracle1 oracle2 bowlerChoice1 bowlerChoice2
  let m := core.1
  let rt := m.getMatchResult.1
  let rd := m.getMatchResult.2
  if matchEndPresent then
    let rd2 := { rd with result_type := some rt }
    ⟨rd2, m, core.2, [rd2]⟩
  else
    ⟨rd, m, core.2, []⟩

/-- The callback invocations a `simulate_match(return_results=False)` call
performs.  In the source every emission point is guarded by
`if self.send_message_func:` (resp. `update_scorecard_func`); the callback
slots are constant throughout the call, so the invocation sequence equals
the emission-point sequence filtered by the presence of each callback. -/
structure MatchCalls where
  result : ResultDict
  state : MatchState
  sendCalls : List Emission
  scorecardCalls : List Emission
  matchEndCalls : List ResultDict
deriving Repr, DecidableEq

/-- `CricketMatch.simulate_match` (lines 858-942) for an arbitrary subset of
present callbacks (absent callbacks are skipped, never invoked). -/
def MatchState.simulateMatch (m0 : MatchState)
    (sendMsgPresent scorecardPresent matchEndPresent : Bool)
    (oracle1 oracle2 : ℕ → BallOutcome) (bowlerChoice1 bowlerChoice2 : ℕ → ℕ) :
    MatchCalls :=
  let r := m0.simulateMatchRun matchEndPresent oracle1 oracle2 bowlerChoice1 bowlerChoice2
  { result := r.result, state := r.state,
    sendCalls := if sendMsgPresent then r.emits.filter Emission.isMsg else [],
    scorecardCalls := if scorecardPresent then r.emits.filter (fun e => !e.isMsg) else [],
    matchEndCalls := r.matchEndCalls }

/-! ## Concrete instances used to witness the theorems -/

/-- A player with the given identity and zeroed match counters. -/
def mkPlayer (i : ℤ) (nm role : String) : Player :=
  { id := i, name := nm, role := role, position := 0, batting_ovr := 50,
    bowling_ovr := 50, runs := 0, balls_faced := 0, wickets := 0,
    balls_bowled := 0, runs_conceded := 0, is_out := false, out_method := none,
    bowler_who_dismissed := none, fielder_who_dismissed := none, fours := 0,
    sixes := 0, overs_bowled := 0, maidens := 0, strike_rate := 0 }

def mkTeam (i : ℤ) (nm : String) (ps : List Player) : Team :=
  { id := i, name := nm, owner_id := i, players := ps, score := 0, wickets := 0,
    overs := 0, balls := 0, chemistry := 1 }

/-- An 11-player XI with 4 batsmen, 4 bowlers, 2 all-rounders and 1
wicket-keeper (the perfect-balance composition). -/
def balancedTeam : Team :=
  mkTeam 1 "Eagles"
    [mkPlayer 1 "A1" "Batsman", mkPlayer 2 "A2" "Batsman",
     mkPlayer 3 "A3" "Batsman", mkPlayer 4 "A4" "Batsman",
     mkPlayer 5 "B1" "Bowler", mkPlayer 6 "B2" "Bowler",
     mkPlayer 7 "B3" "Bowler", mkPlayer 8 "B4" "Bowler",
     mkPlayer 9 "R1" "All-rounder", mkPlayer 10 "R2" "All-rounder",
     mkPlayer 11 "K1" "Wicket Keeper"]

def smallTeam1 : Team :=
  mkTeam 1 "Alpha" [mkPlayer 1 "P1" "Batsman", mkPlayer 2 "P2" "Bowler"]

def smallTeam2 : Team :=
  mkTeam 2 "Beta" [mkPlayer 3 "P3" "Batsman", mkPlayer 4 "P4" "Bowler"]

/-- A one-over friendly between the two small teams, in initial state. -/
def exMatch : MatchState :=
  { team1 := smallTeam1, team2 := smallTeam2, total_overs := 1,
    match_type := "friendly", match_id := none, current_innings := 0,
    team1_score := 0, team1_wickets := 0, team1_overs := 0, team1_balls := 0,
    team2_score := 0, team2_wickets := 0, team2_overs := 0, team2_balls := 0,
    current_batsmen := [], current_bowler := none, target_score := none,
    over_start_runs := 0, batting_side := none, bowling_side := none,
    current_partnership := 0, partnership_balls := 0, fall_of_wickets := [] }

/-- Oracle: every ball is a dot. -/
def allDots : ℕ → BallOutcome := fun _ => BallOutcome.dot

/-- Oracle: every ball is hit for four. -/
def allFours : ℕ → BallOutcome := fun _ => BallOutcome.boundary4

/-- Bowler-choice oracle: always pick the first candidate. -/
def zeroChoice : ℕ → ℕ := fun _ => 0

/-- Final state of a tied match (both teams on 50). -/
def tieState : MatchState := { exMatch with team1_score := 50, team2_score := 50 }

/-- Final state of a successful chase (44/3 against 40). -/
def chasedState : MatchState :=
  { exMatch with team1_score := 40, team2_score := 44, team2_wickets := 3 }

/-- A second-innings setup chasing a target of 1 run. -/
def chaseState : MatchState :=
  { exMatch.resetMatchStats.setupInnings false 2 with target_score := some 1 }

/-- State at the start of the first innings of `exMatch`. -/
def exBallState : MatchState := exMatch.resetMatchStats.setupInnings true 1

/-- Equality of the state components the innings-invariant proofs track:
batting-side wickets and score, the chase target, the saved first-innings
score and the overs format. -/
def FrameEq (a b : MatchState) : Prop :=
  a.battingWickets = b.battingWickets ∧ a.target_score = b.target_score ∧
  a.team1_score = b.team1_score ∧ a.total_overs = b.total_overs

/-! ## Theorems -/

theorem clampProb_lower (lo hi x : ℚ) : lo ≤ clampProb lo hi x := le_max_left _ _

theorem totalProb_clamp_pos (p : BallProbs) : 0 < totalProb (clampProbs p) := by
  have h1 := clampProb_lower (20/100) (60/100) p.dot
  have h2 := clampProb_lower (25/100) (50/100) p.runs13
  have h3 := clampProb_lower (5/100) (20/100) p.four
  have h4 := clampProb_lower (1/100) (15/100) p.six
  have h5 := clampProb_lower (2/100) (15/100) p.wicket
  unfold totalProb clampProbs
  dsimp only
  linarith

theorem normalizeProbs_sum_one (p : BallProbs) (hp : totalProb p ≠ 0) :
    (normalizeProbs p).dot + (normalizeProbs p).runs13 + (normalizeProbs p).four +
      (normalizeProbs p).six + (normalizeProbs p).wicket = 1 := by
  unfold normalizeProbs totalProb at *
  dsimp only
  field_simp

/-- C1: for every call to `simulate_ball` with a batsman and bowler present,
the five outcome probabilities, after clamping to their bands and division by
their total, sum to exactly 1 in exact arithmetic, and the pre-normalization
total is strictly positive, so the division is well defined on every call. -/
theorem simulate_ball_probabilities_normalized
    (skillDiff : ℚ) (phase battingFocus bowlingFocus : String) :
    0 < totalProb (clampedBallProbs skillDiff phase battingFocus bowlingFocus) ∧
    (finalBallProbs skillDiff phase battingFocus bowlingFocus).dot +
      (finalBallProbs skillDiff phase battingFocus bowlingFocus).runs13 +
      (finalBallProbs skillDiff phase battingFocus bowlingFocus).four +
      (finalBallProbs skillDiff phase battingFocus bowlingFocus).six +
      (finalBallProbs skillDiff phase battingFocus bowlingFocus).wicket = 1 := by
  refine ⟨totalProb_clamp_pos _, ?_⟩
  exact normalizeProbs_sum_one _ (ne_of_gt (totalProb_clamp_pos _))


theorem fdiv_natCast (a d : ℕ) : (a : ℤ).fdiv (d : ℤ) = ((a / d : ℕ) : ℤ) := by
  rw [Int.fdiv_eq_ediv _ (by positivity)]
  exact (Int.ofNat_ediv a d).symm

theorem fmod_natCast (a d : ℕ) : (a : ℤ).fmod (d : ℤ) = ((a % d : ℕ) : ℤ) := by
  rw [Int.fmod_eq_emod _ (by positivity)]
  exact (Int.ofNat_emod a d).symm

/-- The integer half-even rounding used for the stored strike rate agrees
with Python's `round` applied to the exact rational quotient. -/
theorem roundHalfEvenDiv_spec (a d : ℕ) (hd : 0 < d) :
    roundHalfEvenDiv (a : ℤ) d =
      (if (a : ℚ) / d - ⌊(a : ℚ) / d⌋ < 1/2 then ⌊(a : ℚ) / d⌋
       else if 1/2 < (a : ℚ) / d - ⌊(a : ℚ) / d⌋ then ⌊(a : ℚ) / d⌋ + 1
       else if ⌊(a : ℚ) / d⌋ % 2 = 0 then ⌊(a : ℚ) / d⌋ else ⌊(a : ℚ) / d⌋ + 1) := by
  have hdq : (0 : ℚ) < (d : ℚ) := by exact_mod_cast hd
  have hdq0 : (d : ℚ) ≠ 0 := ne_of_gt hdq
  have hfloor : ⌊(a : ℚ) / d⌋ = ((a / d : ℕ) : ℤ) := by
    exact_mod_cast Rat.floor_natCast_div_natCast a d
  have hsum : (a : ℚ) = (d : ℚ) * ((a / d : ℕ) : ℚ) + ((a % d : ℕ) : ℚ) := by
    exact_mod_cast (Nat.div_add_mod a d).symm
  have hfract : (a : ℚ) / d - ((a / d : ℕ) : ℚ) = ((a % d : ℕ) : ℚ) / d := by
    calc (a : ℚ) / d - ((a / d : ℕ) : ℚ)
        = ((d : ℚ) * ((a / d : ℕ) : ℚ) + ((a % d : ℕ) : ℚ)) / d - ((a / d : ℕ) : ℚ) := by
          rw [← hsum]
      _ = ((a % d : ℕ) : ℚ) / d := by
          rw [add_div, mul_div_cancel_left₀ _ hdq0]
          ring
  have hfract' : (a : ℚ) / d - ((((a / d : ℕ) : ℤ)) : ℚ) = ((a % d : ℕ) : ℚ) / d := by
    push_cast
    push_cast at hfract
    exact hfract
  have e1 : (a : ℚ) / d - ((((a / d : ℕ) : ℤ)) : ℚ) < 1/2 ↔
      2 * ((a : ℤ).fmod d) < (d : ℤ) := by
    rw [hfract', fmod_natCast, div_lt_div_iff₀ hdq (by norm_num : (0:ℚ) < 2)]
    constructor
    · intro h
      have h2 : ((a % d : ℕ) : ℚ) * 2 < (d : ℚ) := by linarith
      have h3 : ((a % d) * 2 : ℕ) < d := by exact_mod_cast h2
      push_cast
      omega
    · intro h
      have h3 : (2 * (a % d) : ℕ) < d := by exact_mod_cast h
      have h2 : ((2 * (a % d) : ℕ) : ℚ) < (d : ℚ) := by exact_mod_cast h3
      push_cast at h2
      linarith
  have e2 : 1/2 < (a : ℚ) / d - ((((a / d : ℕ) : ℤ)) : ℚ) ↔
      (d : ℤ) < 2 * ((a : ℤ).fmod d) := by
    rw [hfract', fmod_natCast, lt_div_iff₀ hdq]
    constructor
    · intro h
      have h2 : (d : ℚ) < ((2 * (a % d) : ℕ) : ℚ) := by push_cast; linarith
      have h3 : d < (2 * (a % d) : ℕ) := by exact_mod_cast h2
      push_cast
      omega
    · intro h
      have h3 : d < (2 * (a % d) : ℕ) := by exact_mod_cast h
      have h2 : (d : ℚ) < ((2 * (a % d) : ℕ) : ℚ) := by exact_mod_cast h3
      push_cast at h2
      linarith
  unfold roundHalfEvenDiv
  rw [hfloor, fdiv_natCast]
  by_cases h1 : 2 * ((a : ℤ).fmod d) < (d : ℤ)
  · rw [if_pos h1, if_pos (e1.mpr h1)]
  · rw [if_neg h1, if_neg (fun hc => h1 (e1.mp hc))]
    by_cases h2 : (d : ℤ) < 2 * ((a : ℤ).fmod d)
    · rw [if_pos h2, if_pos (e2.mpr h2)]
    · rw [if_neg h2, if_neg (fun hc => h2 (e2.mp hc))]

/-- The stored fixed-point strike rate divided by 100 is exactly
`round(runs / balls * 100, 2)` computed in exact rational arithmetic. -/
theorem strikeRateFor_eq_roundTo2 (runs balls : ℕ) (hb : 0 < balls) :
    ((strikeRateFor runs balls : ℤ) : ℚ) / 100 = roundTo2 ((runs : ℚ) / balls * 100) := by
  have harg : (runs : ℚ) / balls * 100 * 100 = ((runs * 10000 : ℕ) : ℚ) / balls := by
    push_cast
    ring
  unfold strikeRateFor roundTo2
  rw [if_pos hb, harg]
  rw [show ((runs : ℤ) * 10000) = ((runs * 10000 : ℕ) : ℤ) from by push_cast; ring]
  rw [roundHalfEvenDiv_spec (runs * 10000) balls hb]


theorem resetStats_idem (p : Player) : p.resetStats.resetStats = p.resetStats := rfl

/-- C8: `reset_match_stats` is idempotent: calling it twice yields a state
(team counters, per-player counters, innings state, partnerships,
fall-of-wickets) identical to calling it once. -/
theorem reset_match_stats_idempotent (m : MatchState) :
    m.resetMatchStats.resetMatchStats = m.resetMatchStats := by
  have hcomp : Player.resetStats ∘ Player.resetStats = Player.resetStats :=
    funext fun p => rfl
  simp [MatchState.resetMatchStats, List.map_map, hcomp]

/-- C2: `get_match_result`/`complete_match` produce exactly one result type,
agreeing with the score ordering: `team1_win` iff `team1_score > team2_score`
(margin in runs), `team2_win_wickets` iff `team2_score > team1_score`
(margin `10 - team2_wickets`), `tie` iff equal (winner `"Tie"`/`None`,
margin 0); `complete_match` tags the dict with the same result type. -/
theorem get_match_result_agrees (m : MatchState) (w l t : ℤ) (b : Bool) :
    (m.getMatchResult.1 = "team1_win" ↔ m.team2_score < m.team1_score) ∧
    (m.team2_score < m.team1_score →
      m.getMatchResult.2.winner = m.team1.name ∧
      m.getMatchResult.2.margin_type = "runs" ∧
      m.getMatchResult.2.margin = (m.team1_score : ℤ) - m.team2_score) ∧
    (m.getMatchResult.1 = "team2_win_wickets" ↔ m.team1_score < m.team2_score) ∧
    (m.team1_score < m.team2_score →
      m.getMatchResult.2.winner = m.team2.name ∧
      m.getMatchResult.2.margin_type = "wickets" ∧
      m.getMatchResult.2.margin = 10 - (m.team2_wickets : ℤ)) ∧
    (m.getMatchResult.1 = "tie" ↔ m.team1_score = m.team2_score) ∧
    (m.team1_score = m.team2_score →
      m.getMatchResult.2.winner = "Tie" ∧ m.getMatchResult.2.winner_id = none ∧
      m.getMatchResult.2.winner_owner_id = none ∧
      m.getMatchResult.2.margin_type = "tie" ∧ m.getMatchResult.2.margin = 0) ∧
    (m.completeMatch w l t b).1.result_type = some m.getMatchResult.1 := by
  have hs1 : ("team1_win" : String) ≠ "team2_win_wickets" := by decide
  have hs2 : ("team2_win_wickets" : String) ≠ "team1_win" := by decide
  have hs3 : ("tie" : String) ≠ "team1_win" := by decide
  have hs4 : ("tie" : String) ≠ "team2_win_wickets" := by decide
  rcases Nat.lt_trichotomy m.team1_score m.team2_score with h | h | h
  · have h1 : ¬ m.team2_score < m.team1_score := by omega
    have h2 : ¬ m.team1_score = m.team2_score := by omega
    simp [MatchState.getMatchResult, MatchState.completeMatch,
          MatchState.scoreFields, h, h1, h2, hs2, hs4]
  · have h1 : ¬ m.team2_score < m.team1_score := by omega
    have h2 : ¬ m.team1_score < m.team2_score := by omega
    simp [MatchState.getMatchResult, MatchState.completeMatch,
          MatchState.scoreFields, h, h1, h2, hs3, hs4]
  · have h1 : ¬ m.team1_score < m.team2_score := by omega
    have h2 : ¬ m.team1_score = m.team2_score := by omega
    simp [MatchState.getMatchResult, MatchState.completeMatch,
          MatchState.scoreFields, h, h1, h2, hs1, hs3]

theorem get_match_result_agrees_witness :
    chasedState.getMatchResult.1 = "team2_win_wickets" ∧
    chasedState.getMatchResult.2.margin = 7 := by
  have h := get_match_result_agrees chasedState 1 2 3 true
  refine ⟨h.2.2.1.mpr (by decide), ?_⟩
  have h2 := (h.2.2.2.1 (by decide)).2.2
  rw [h2]
  decide

/-- C9: `get_match_result` never returns `team2_win_runs`: every team-2 win
is tagged `team2_win_wickets` with a wickets margin of `10 - team2_wickets`,
so one of the four advertised result-type tags is unreachable. -/
theorem no_team2_win_runs (m : MatchState) (w l t : ℤ) (b : Bool) :
    m.getMatchResult.1 ≠ "team2_win_runs" ∧
    (m.team1_score < m.team2_score →
      m.getMatchResult.1 = "team2_win_wickets" ∧
      m.getMatchResult.2.margin_type = "wickets" ∧
      m.getMatchResult.2.margin = 10 - (m.team2_wickets : ℤ)) ∧
    (m.completeMatch w l t b).1.result_type ≠ some "team2_win_runs" := by
  have hs1 : ("team1_win" : String) ≠ "team2_win_runs" := by decide
  have hs2 : ("team2_win_wickets" : String) ≠ "team2_win_runs" := by decide
  have hs3 : ("tie" : String) ≠ "team2_win_runs" := by decide
  rcases Nat.lt_trichotomy m.team1_score m.team2_score with h | h | h
  · have h1 : ¬ m.team2_score < m.team1_score := by omega
    simp [MatchState.getMatchResult, MatchState.completeMatch,
          MatchState.scoreFields, h, h1, hs2]
  · have h1 : ¬ m.team2_score < m.team1_score := by omega
    have h2 : ¬ m.team1_score < m.team2_score := by omega
    simp [MatchState.getMatchResult, MatchState.completeMatch,
          MatchState.scoreFields, h1, h2, hs3]
  · have h1 : ¬ m.team1_score < m.team2_score := by omega
    simp [MatchState.getMatchResult, MatchState.completeMatch,
          MatchState.scoreFields, h, h1, hs1]

theorem no_team2_win_runs_witness :
    chasedState.getMatchResult.1 = "team2_win_wickets" ∧
    chasedState.getMatchResult.1 ≠ "team2_win_runs" := by
  have h := no_team2_win_runs chasedState 1 2 3 true
  exact ⟨(h.2.1 (by decide)).1, h.1⟩

/-- C10: on a tie, `complete_match` assigns both rewards from the same
single `tie_coins` draw, so the two tie rewards are exactly equal, one value
in `[700, 1000]` shared by both teams. -/
theorem complete_match_tie_rewards (m : MatchState) (w l t : ℤ) (b : Bool)
    (htie : m.team1_score = m.team2_score) (h700 : 700 ≤ t) (h1000 : t ≤ 1000) :
    (m.completeMatch w l t b).1.team1_reward = some t ∧
    (m.completeMatch w l t b).1.team2_reward = some t ∧
    (m.completeMatch w l t b).1.team1_reward =
      (m.completeMatch w l t b).1.team2_reward ∧
    ∃ v, (m.completeMatch w l t b).1.team1_reward = some v ∧
      (m.completeMatch w l t b).1.team2_reward = some v ∧ 700 ≤ v ∧ v ≤ 1000 := by
  have h1 : ¬ m.team2_score < m.team1_score := by omega
  have h2 : ¬ m.team1_score < m.team2_score := by omega
  have hs1 : ("tie" : String) ≠ "team1_win" := by decide
  have hs2 : ("tie" : String) ≠ "team2_win_wickets" := by decide
  have hs3 : ("tie" : String) ≠ "team2_win_runs" := by decide
  simp [MatchState.completeMatch, MatchState.getMatchResult,
        MatchState.scoreFields, h1, h2, hs1, hs2, hs3]
  exact ⟨h700, h1000⟩

theorem complete_match_tie_rewards_witness :
    (tieState.completeMatch 1200 550 800 true).1.team1_reward = some 800 ∧
    (tieState.completeMatch 1200 550 800 true).1.team2_reward = some 800 := by
  have h := complete_match_tie_rewards tieState 1200 550 800 true
    (by decide) (by decide) (by decide)
  exact ⟨h.1, h.2.1⟩

/-- C5: `calculate_chemistry` returns a value in `[0.5, 1.5]` and stores the
same value on the team; fewer than 5 players yields exactly 0.50; an
11-player team with exactly 4 batsmen, 4 bowlers, 2 all-rounders and 1
wicket-keeper gets the perfect-balance bonus and scores at least 1.0. -/
theorem calculateChemistry_stores (t : Team) :
    t.calculateChemistry.2.chemistry = t.calculateChemistry.1 := by
  unfold Team.calculateChemistry
  split <;> rfl

theorem calculate_chemistry_spec (t : Team) :
    1/2 ≤ t.calculateChemistry.1 ∧ t.calculateChemistry.1 ≤ 3/2 ∧
    t.calculateChemistry.2.chemistry = t.calculateChemistry.1 ∧
    (t.players.length < 5 → t.calculateChemistry.1 = 1/2) ∧
    (t.players.length = 11 → t.countBatsmen = 4 → t.countBowlers = 4 →
      t.countAllRounders = 2 → t.countKeepers = 1 →
      1 ≤ t.calculateChemistry.1) := by
  by_cases hlen : t.players.length < 5
  · refine ⟨?_, ?_, calculateChemistry_stores t, fun _ => ?_, fun h11 _ _ _ _ => ?_⟩
    · norm_num [Team.calculateChemistry, hlen]
    · norm_num [Team.calculateChemistry, hlen]
    · norm_num [Team.calculateChemistry, hlen]
    · omega
  · refine ⟨?_, ?_, calculateChemistry_stores t, fun h => absurd h hlen, ?_⟩
    · simp only [Team.calculateChemistry, if_neg hlen]
      exact le_max_left _ _
    · simp only [Team.calculateChemistry, if_neg hlen]
      exact max_le (by norm_num) (min_le_right _ _)
    · intro h11 hbat hbowl hall hkeep
      simp only [Team.calculateChemistry, if_neg hlen]
      rw [hbat, hbowl, hall, hkeep]
      norm_num [max_def, min_def]

theorem calculate_chemistry_witness :
    1 ≤ balancedTeam.calculateChemistry.1 := by
  have h := calculate_chemistry_spec balancedTeam
  exact h.2.2.2.2 (by decide) (by decide) (by decide) (by decide) (by decide)

theorem findPlayer_updatePlayer (l : List Player) (pid : ℤ) (p q : Player)
    (h : findPlayer l pid = some p) (hq : q.id = p.id) :
    findPlayer (updatePlayer l q) pid = some q := by
  have hpid : p.id = pid := by
    have h2 := List.find?_some h
    simpa using h2
  induction l with
  | nil => simp [findPlayer] at h
  | cons a l ih =>
    simp only [findPlayer] at h ⊢
    simp only [updatePlayer, List.map_cons]
    by_cases ha : a.id = pid
    · rw [List.find?_cons_of_pos _ (by simpa using ha)] at h
      have hap : a = p := by injection h
      have haq : a.id = q.id := by rw [hq, ← hap]
      rw [if_pos haq]
      exact List.find?_cons_of_pos _ (by simpa using hq.trans hpid)
    · rw [List.find?_cons_of_neg _ (by simpa using ha)] at h
      have hqpid : q.id = pid := hq.trans hpid
      rw [if_neg (fun hc : a.id = q.id => ha (hc.trans hqpid))]
      rw [List.find?_cons_of_neg _ (by simpa using ha)]
      exact ih h

theorem getSide_setSide (m : MatchState) (s : Bool) (t : Team) :
    (m.setSide s t).getSide s = t := by
  cases s <;> rfl

/-- C6: `simulate_ball` increments the striker's `balls_faced` by exactly 1
regardless of the sampled outcome; after `add_ball`/`add_runs` the stored
strike rate is `round(runs/balls_faced*100, 2)` when `balls_faced > 0` and
0.0 otherwise; in particular 50 runs off 25 balls is a strike rate of 200.00
(20000 hundredths). -/
theorem ball_and_strike_rate_accounting (p q : Player) (n : ℕ) (o : BallOutcome)
    (m : MatchState) (bid : ℤ) (rest : List ℤ) (s : Bool)
    (hb : m.current_batsmen = bid :: rest)
    (hbw : m.current_bowler.isSome = true)
    (hside : m.batting_side = some s)
    (hfind : findPlayer (m.getSide s).players bid = some q) :
    p.addBall.balls_faced = p.balls_faced + 1 ∧
    (p.addBall.strike_rate : ℚ) / 100 =
      roundTo2 ((p.runs : ℚ) / ((p.balls_faced : ℚ) + 1) * 100) ∧
    (p.balls_faced = 0 → (p.addRuns n).strike_rate = 0) ∧
    (0 < p.balls_faced →
      ((p.addRuns n).strike_rate : ℚ) / 100 =
        roundTo2 (((p.runs : ℚ) + n) / (p.balls_faced : ℚ) * 100)) ∧
    (∃ q', findPlayer ((m.simulateBallStats o).2.getSide s).players bid = some q' ∧
      q'.balls_faced = q.balls_faced + 1) ∧
    strikeRateFor 50 25 = 20000 ∧
    (∀ k, strikeRateFor k 0 = 0) := by
  obtain ⟨bw, hbw'⟩ := Option.isSome_iff_exists.mp hbw
  refine ⟨rfl, ?_, ?_, ?_, ?_, by decide, fun k => by simp [strikeRateFor]⟩
  · have h := strikeRateFor_eq_roundTo2 p.runs (p.balls_faced + 1) (Nat.succ_pos _)
    have hcast : ((p.balls_faced + 1 : ℕ) : ℚ) = (p.balls_faced : ℚ) + 1 := by
      push_cast
      ring
    rw [Player.addBall]
    dsimp only
    rw [h, hcast]
  · intro h0
    simp [Player.addRuns, strikeRateFor, h0]
  · intro hpos
    have h := strikeRateFor_eq_roundTo2 (p.runs + n) p.balls_faced hpos
    have hcast : ((p.runs + n : ℕ) : ℚ) = (p.runs : ℚ) + n := by
      push_cast
      ring
    rw [Player.addRuns]
    dsimp only
    rw [h, hcast]
  · have hqid : q.id = bid := by
      have h2 := List.find?_some hfind
      simpa using h2
    unfold MatchState.simulateBallStats
    rw [hb, hbw', hside]
    dsimp only
    rw [hfind]
    dsimp only
    cases o with
    | dot =>
        refine ⟨q.addBall, ?_, ?_⟩
        · dsimp only
          rw [getSide_setSide]
          exact findPlayer_updatePlayer _ _ q _ hfind rfl
        · rfl
    | runs k =>
        refine ⟨(q.addBall.addRuns k), ?_, ?_⟩
        · dsimp only
          rw [getSide_setSide]
          exact findPlayer_updatePlayer _ _ q _ hfind rfl
        · rfl
    | boundary4 =>
        refine ⟨(q.addBall.addRuns 4), ?_, ?_⟩
        · dsimp only
          rw [getSide_setSide]
          exact findPlayer_updatePlayer _ _ q _ hfind rfl
        · rfl
    | boundary6 =>
        refine ⟨(q.addBall.addRuns 6), ?_, ?_⟩
        · dsimp only
          rw [getSide_setSide]
          exact findPlayer_updatePlayer _ _ q _ hfind rfl
        · rfl
    | wicket d f =>
        refine ⟨{ q.addBall with is_out := true, out_method := some d, bowler_who_dismissed := some m.currentBowlerName, fielder_who_dismissed := f }, ?_, ?_⟩
        · dsimp only
          rw [getSide_setSide]
          exact findPlayer_updatePlayer _ _ q _ hfind rfl
        · rfl

theorem ball_and_strike_rate_witness :
    (∃ q', findPlayer ((exBallState.simulateBallStats BallOutcome.dot).2.getSide
        true).players 1 = some q' ∧
      q'.balls_faced = (mkPlayer 1 "P1" "Batsman").balls_faced + 1) ∧
    strikeRateFor 50 25 = 20000 := by
  have h := ball_and_strike_rate_accounting (mkPlayer 9 "X" "Batsman")
    (mkPlayer 1 "P1" "Batsman") 0 BallOutcome.dot exBallState 1 [2] true
    (by decide) (by decide) (by decide) (by decide)
  exact ⟨h.2.2.2.2.1, h.2.2.2.2.2.1⟩

theorem getMatchResult_no_extra_keys (m : MatchState) :
    m.getMatchResult.2.team1_reward = none ∧
    m.getMatchResult.2.team2_reward = none ∧
    m.getMatchResult.2.result_type = none := by
  unfold MatchState.getMatchResult MatchState.scoreFields
  split_ifs <;> exact ⟨rfl, rfl, rfl⟩

/-- C3 counterexample: the claim says the result dictionary returned by
`simulate_match(return_results=False)` and delivered to the match_end
callback contains randomized `team1_reward`/`team2_reward` amounts; on a
concrete full simulation both reward keys are absent from the returned dict
and from the dict delivered to the callback. -/
theorem simulate_match_rewards_counterexample :
    (exMatch.simulateMatch true true true allDots allDots zeroChoice
      zeroChoice).result.team1_reward = none ∧
    (exMatch.simulateMatch true true true allDots allDots zeroChoice
      zeroChoice).result.team2_reward = none ∧
    (exMatch.simulateMatch true true true allDots allDots zeroChoice
      zeroChoice).matchEndCalls.map ResultDict.team1_reward = [none] := by
  decide

/-- C3 (amended): the result dictionary returned by
`simulate_match(return_results=False)` and delivered to the match_end
callback contains winner name/id/owner id, margin type and value, both
teams' final score/wickets/overs and the result_type tag, but no reward
keys; randomized rewards are attached only by `complete_match`, the
`return_results=True` path. -/
theorem simulate_match_result_no_rewards (m0 : MatchState) (sp scp mep : Bool)
    (o1 o2 : ℕ → BallOutcome) (b1 b2 : ℕ → ℕ) (w l t : ℤ) :
    (m0.simulateMatch sp scp mep o1 o2 b1 b2).result.team1_reward = none ∧
    (m0.simulateMatch sp scp mep o1 o2 b1 b2).result.team2_reward = none ∧
    (m0.completeMatch w l t mep).1.team1_reward.isSome = true ∧
    (m0.completeMatch w l t mep).1.team2_reward.isSome = true ∧
    (∀ d ∈ (m0.simulateMatch sp scp mep o1 o2 b1 b2).matchEndCalls,
      d.team1_reward = none ∧ d.team2_reward = none ∧
      d.result_type =
        some (m0.simulateMatch sp scp mep o1 o2 b1 b2).state.getMatchResult.1) ∧
    ((m0.simulateMatch sp scp mep o1 o2 b1 b2).result.winner =
        (m0.simulateMatch sp scp mep o1 o2 b1 b2).state.getMatchResult.2.winner ∧
      (m0.simulateMatch sp scp mep o1 o2 b1 b2).result.winner_id =
        (m0.simulateMatch sp scp mep o1 o2 b1 b2).state.getMatchResult.2.winner_id ∧
      (m0.simulateMatch sp scp mep o1 o2 b1 b2).result.winner_owner_id =
        (m0.simulateMatch sp scp mep o1 o2 b1 b2).state.getMatchResult.2.winner_owner_id ∧
      (m0.simulateMatch sp scp mep o1 o2 b1 b2).result.margin_type =
        (m0.simulateMatch sp scp mep o1 o2 b1 b2).state.getMatchResult.2.margin_type ∧
      (m0.simulateMatch sp scp mep o1 o2 b1 b2).result.margin =
        (m0.simulateMatch sp scp mep o1 o2 b1 b2).state.getMatchResult.2.margin ∧
      (m0.simulateMatch sp scp mep o1 o2 b1 b2).result.team1_score =
        (m0.simulateMatch sp scp mep o1 o2 b1 b2).state.getMatchResult.2.team1_score ∧
      (m0.simulateMatch sp scp mep o1 o2 b1 b2).result.team1_wickets =
        (m0.simulateMatch sp scp mep o1 o2 b1 b2).state.getMatchResult.2.team1_wickets ∧
      (m0.simulateMatch sp scp mep o1 o2 b1 b2).result.team1_overs =
        (m0.simulateMatch sp scp mep o1 o2 b1 b2).state.getMatchResult.2.team1_overs ∧
      (m0.simulateMatch sp scp mep o1 o2 b1 b2).result.team2_score =
        (m0.simulateMatch sp scp mep o1 o2 b1 b2).state.getMatchResult.2.team2_score ∧
      (m0.simulateMatch sp scp mep o1 o2 b1 b2).result.team2_wickets =
        (m0.simulateMatch sp scp mep o1 o2 b1 b2).state.getMatchResult.2.team2_wickets ∧
      (m0.simulateMatch sp scp mep o1 o2 b1 b2).result.team2_overs =
        (m0.simulateMatch sp scp mep o1 o2 b1 b2).state.getMatchResult.2.team2_overs) ∧
    (mep = true → (m0.simulateMatch sp scp mep o1 o2 b1 b2).result.result_type =
      some (m0.simulateMatch sp scp mep o1 o2 b1 b2).state.getMatchResult.1) := by
  have hnone := getMatchResult_no_extra_keys
    (m0.simulateMatchCore o1 o2 b1 b2).1
  have hcm1 : (m0.completeMatch w l t mep).1.team1_reward.isSome = true := by
    unfold MatchState.completeMatch
    dsimp only
    split_ifs <;> rfl
  have hcm2 : (m0.completeMatch w l t mep).1.team2_reward.isSome = true := by
    unfold MatchState.completeMatch
    dsimp only
    split_ifs <;> rfl
  cases mep <;>
    simp_all [MatchState.simulateMatch, MatchState.simulateMatchRun]

theorem simulate_match_result_no_rewards_witness :
    (exMatch.simulateMatch true true true allDots allDots zeroChoice
      zeroChoice).result.team1_reward = none ∧
    (exMatch.completeMatch 1 2 3 true).1.team1_reward.isSome = true := by
  have h := simulate_match_result_no_rewards exMatch true true true allDots
    allDots zeroChoice zeroChoice 1 2 3
  exact ⟨h.1, h.2.2.1⟩

/-- C7: for every subset of the three callbacks being absent, the engine
never invokes an absent callback: the simulation completes with a state
independent of which callbacks are present, emission points of absent
callbacks are skipped, and when match_end is present it is invoked exactly
once with the returned result dictionary. -/
theorem callbacks_optional (m0 : MatchState) (sp scp mep : Bool)
    (o1 o2 : ℕ → BallOutcome) (b1 b2 : ℕ → ℕ) :
    (m0.simulateMatch sp scp mep o1 o2 b1 b2).matchEndCalls.length =
      (if mep then 1 else 0) ∧
    (mep = false → (m0.simulateMatch sp scp mep o1 o2 b1 b2).matchEndCalls = []) ∧
    (sp = false → (m0.simulateMatch sp scp mep o1 o2 b1 b2).sendCalls = []) ∧
    (scp = false → (m0.simulateMatch sp scp mep o1 o2 b1 b2).scorecardCalls = []) ∧
    (m0.simulateMatch sp scp mep o1 o2 b1 b2).state =
      (m0.simulateMatch false false false o1 o2 b1 b2).state ∧
    (mep = true → (m0.simulateMatch sp scp mep o1 o2 b1 b2).matchEndCalls =
      [(m0.simulateMatch sp scp mep o1 o2 b1 b2).result]) := by
  cases sp <;> cases scp <;> cases mep <;>
    simp [MatchState.simulateMatch, MatchState.simulateMatchRun]

theorem callbacks_optional_witness :
    (exMatch.simulateMatch false false false allDots allDots zeroChoice
      zeroChoice).matchEndCalls = [] ∧
    (exMatch.simulateMatch false true true allDots allDots zeroChoice
      zeroChoice).sendCalls = [] := by
  have h1 := callbacks_optional exMatch false false false allDots allDots
    zeroChoice zeroChoice
  have h2 := callbacks_optional exMatch false true true allDots allDots
    zeroChoice zeroChoice
  exact ⟨h1.2.1 rfl, h2.2.2.1 rfl⟩

theorem batting_side_setSide (m : MatchState) (s : Bool) (t : Team) :
    (m.setSide s t).batting_side = m.batting_side := by cases s <;> rfl

theorem bowling_side_setSide (m : MatchState) (s : Bool) (t : Team) :
    (m.setSide s t).bowling_side = m.bowling_side := by cases s <;> rfl

theorem current_bowler_setSide (m : MatchState) (s : Bool) (t : Team) :
    (m.setSide s t).current_bowler = m.current_bowler := by cases s <;> rfl

theorem current_batsmen_setSide (m : MatchState) (s : Bool) (t : Team) :
    (m.setSide s t).current_batsmen = m.current_batsmen := by cases s <;> rfl

theorem target_score_setSide (m : MatchState) (s : Bool) (t : Team) :
    (m.setSide s t).target_score = m.target_score := by cases s <;> rfl

theorem team1_score_setSide (m : MatchState) (s : Bool) (t : Team) :
    (m.setSide s t).team1_score = m.team1_score := by cases s <;> rfl

theorem total_overs_setSide (m : MatchState) (s : Bool) (t : Team) :
    (m.setSide s t).total_overs = m.total_overs := by cases s <;> rfl

theorem battingWickets_setSide (m : MatchState) (s : Bool) (t : Team)
    (h : t.wickets = (m.getSide s).wickets) :
    (m.setSide s t).battingWickets = m.battingWickets := by
  unfold MatchState.battingWickets MatchState.battingTeam
  rw [batting_side_setSide]
  rcases hb : m.batting_side with _ | b
  · rfl
  · cases s <;> cases b <;> simp_all [MatchState.getSide, MatchState.setSide]

theorem battingScore_setSide (m : MatchState) (s : Bool) (t : Team)
    (h : t.score = (m.getSide s).score) :
    (m.setSide s t).battingScore = m.battingScore := by
  unfold MatchState.battingScore MatchState.battingTeam
  rw [batting_side_setSide]
  rcases hb : m.batting_side with _ | b
  · rfl
  · cases s <;> cases b <;> simp_all [MatchState.getSide, MatchState.setSide]

theorem battingWickets_updBatting (m : MatchState) (f : Team → Team)
    (hf : ∀ u, (f u).wickets = u.wickets) :
    (m.updBatting f).battingWickets = m.battingWickets := by
  unfold MatchState.updBatting
  rcases hb : m.batting_side with _ | s
  · rfl
  · exact battingWickets_setSide m s _ (hf _)

theorem battingScore_updBatting (m : MatchState) (f : Team → Team)
    (hf : ∀ u, (f u).score = u.score) :
    (m.updBatting f).battingScore = m.battingScore := by
  unfold MatchState.updBatting
  rcases hb : m.batting_side with _ | s
  · rfl
  · exact battingScore_setSide m s _ (hf _)

theorem updBatting_frame (m : MatchState) (f : Team → Team) :
    (m.updBatting f).batting_side = m.batting_side ∧
    (m.updBatting f).bowling_side = m.bowling_side ∧
    (m.updBatting f).current_bowler = m.current_bowler ∧
    (m.updBatting f).current_batsmen = m.current_batsmen ∧
    (m.updBatting f).target_score = m.target_score ∧
    (m.updBatting f).team1_score = m.team1_score ∧
    (m.updBatting f).total_overs = m.total_overs := by
  unfold MatchState.updBatting
  rcases hb : m.batting_side with _ | s
  · exact ⟨hb, rfl, rfl, rfl, rfl, rfl, rfl⟩
  · exact ⟨(batting_side_setSide ..).trans hb, bowling_side_setSide ..,
      current_bowler_setSide .., current_batsmen_setSide ..,
      target_score_setSide .., team1_score_setSide .., total_overs_setSide ..⟩

theorem updBowler_frame (m : MatchState) (f : Player → Player) :
    (m.updBowler f).battingWickets = m.battingWickets ∧
    (m.updBowler f).battingScore = m.battingScore ∧
    (m.updBowler f).batting_side = m.batting_side ∧
    (m.updBowler f).bowling_side = m.bowling_side ∧
    (m.updBowler f).current_bowler = m.current_bowler ∧
    (m.updBowler f).current_batsmen = m.current_batsmen ∧
    (m.updBowler f).target_score = m.target_score ∧
    (m.updBowler f).team1_score = m.team1_score ∧
    (m.updBowler f).total_overs = m.total_overs := by
  unfold MatchState.updBowler
  rcases hcb : m.current_bowler with _ | bw
  · exact ⟨rfl, rfl, rfl, rfl, hcb, rfl, rfl, rfl, rfl⟩
  · rcases hbs : m.bowling_side with _ | s
    · exact ⟨rfl, rfl, rfl, hbs, hcb, rfl, rfl, rfl, rfl⟩
    · dsimp only
      rcases hf : findPlayer (m.getSide s).players bw with _ | p
      · exact ⟨rfl, rfl, rfl, hbs, hcb, rfl, rfl, rfl, rfl⟩
      · exact ⟨battingWickets_setSide m s _ rfl, battingScore_setSide m s _ rfl,
          batting_side_setSide .., (bowling_side_setSide ..).trans hbs,
          (current_bowler_setSide ..).trans hcb, current_batsmen_setSide ..,
          target_score_setSide .., team1_score_setSide .., total_overs_setSide ..⟩

theorem simulateBallStats_frame (m : MatchState) (o : BallOutcome) :
    (m.simulateBallStats o).2.battingWickets = m.battingWickets ∧
    (m.simulateBallStats o).2.battingScore = m.battingScore ∧
    (m.simulateBallStats o).2.batting_side = m.batting_side ∧
    (m.simulateBallStats o).2.bowling_side = m.bowling_side ∧
    (m.simulateBallStats o).2.current_bowler = m.current_bowler ∧
    (m.simulateBallStats o).2.current_batsmen = m.current_batsmen ∧
    (m.simulateBallStats o).2.target_score = m.target_score ∧
    (m.simulateBallStats o).2.team1_score = m.team1_score ∧
    (m.simulateBallStats o).2.total_overs = m.total_overs := by
  unfold MatchState.simulateBallStats
  rcases hcm : m.current_batsmen with _ | ⟨bid, rest⟩
  · exact ⟨rfl, rfl, rfl, rfl, rfl, hcm, rfl, rfl, rfl⟩
  · rcases hcb : m.current_bowler with _ | bw
    · exact ⟨rfl, rfl, rfl, rfl, hcb, hcm, rfl, rfl, rfl⟩
    · rcases hbs : m.batting_side with _ | s
      · exact ⟨rfl, rfl, hbs, rfl, hcb, hcm, rfl, rfl, rfl⟩
      · dsimp only
        rcases hf : findPlayer (m.getSide s).players bid with _ | q
        · exact ⟨rfl, rfl, hbs, rfl, hcb, hcm, rfl, rfl, rfl⟩
        · exact ⟨battingWickets_setSide m s _ rfl, battingScore_setSide m s _ rfl,
            (batting_side_setSide ..).trans hbs, bowling_side_setSide ..,
            (current_bowler_setSide ..).trans hcb, (current_batsmen_setSide ..).trans hcm,
            target_score_setSide .., team1_score_setSide .., total_overs_setSide ..⟩

theorem ballTargetCheck_spec (target : Option ℕ) (over ball : ℕ) (m : MatchState)
    (emits : List Emission) :
    (ballTargetCheck target over ball m emits).state = m ∧
    (ballTargetCheck target over ball m emits).allOut = false ∧
    (ballTargetCheck target over ball m emits).noBatsman = false ∧
    ((ballTargetCheck target over ball m emits).targetReached = true →
      ∃ t, target = some t ∧ t ≠ 0 ∧ t ≤ m.battingScore) := by
  unfold ballTargetCheck
  rcases target with _ | t
  · exact ⟨rfl, rfl, rfl, fun h => by simp at h⟩
  · dsimp only
    by_cases hc : t ≠ 0 ∧ t ≤ m.battingScore
    · rw [if_pos hc]
      exact ⟨rfl, rfl, rfl, fun _ => ⟨t, rfl, hc.1, hc.2⟩⟩
    · rw [if_neg hc]
      exact ⟨rfl, rfl, rfl, fun h => by simp at h⟩

theorem FrameEq.rfl' (a : MatchState) : FrameEq a a := ⟨rfl, rfl, rfl, rfl⟩

theorem FrameEq.trans' {a b c : MatchState} (h1 : FrameEq a b) (h2 : FrameEq b c) :
    FrameEq a c :=
  ⟨h1.1.trans h2.1, h1.2.1.trans h2.2.1, h1.2.2.1.trans h2.2.2.1,
   h1.2.2.2.trans h2.2.2.2⟩

theorem frameEq_updBatting (m : MatchState) (f : Team → Team)
    (hw : ∀ u, (f u).wickets = u.wickets) :
    FrameEq (m.updBatting f) m :=
  ⟨battingWickets_updBatting m f hw,
   (updBatting_frame m f).2.2.2.2.1, (updBatting_frame m f).2.2.2.2.2.1,
   (updBatting_frame m f).2.2.2.2.2.2⟩

theorem frameEq_updBowler (m : MatchState) (f : Player → Player) :
    FrameEq (m.updBowler f) m :=
  ⟨(updBowler_frame m f).1,
   (updBowler_frame m f).2.2.2.2.2.2.1, (updBowler_frame m f).2.2.2.2.2.2.2.1,
   (updBowler_frame m f).2.2.2.2.2.2.2.2⟩

theorem frameEq_simulateBallStats (m : MatchState) (o : BallOutcome) :
    FrameEq (m.simulateBallStats o).2 m :=
  ⟨(simulateBallStats_frame m o).1,
   (simulateBallStats_frame m o).2.2.2.2.2.2.1,
   (simulateBallStats_frame m o).2.2.2.2.2.2.2.1,
   (simulateBallStats_frame m o).2.2.2.2.2.2.2.2⟩

theorem frameEq_swapBatsmen (m : MatchState) : FrameEq (swapBatsmen m) m :=
  ⟨rfl, rfl, rfl, rfl⟩

theorem frameEq_partnership_balls (m : MatchState) (x : ℕ) :
    FrameEq { m with partnership_balls := x } m := ⟨rfl, rfl, rfl, rfl⟩

theorem frameEq_partnership (m : MatchState) (x y : ℕ) :
    FrameEq { m with current_partnership := x, partnership_balls := y } m :=
  ⟨rfl, rfl, rfl, rfl⟩

theorem frameEq_current_partnership (m : MatchState) (x : ℕ) :
    FrameEq { m with current_partnership := x } m := ⟨rfl, rfl, rfl, rfl⟩

theorem frameEq_fall_of_wickets (m : MatchState) (l : List FallOfWicket) :
    FrameEq { m with fall_of_wickets := l } m := ⟨rfl, rfl, rfl, rfl⟩

theorem frameEq_replaceOutBatsman (m : MatchState) (nm : String) (i : ℤ) :
    FrameEq (m.replaceOutBatsman nm i) m := ⟨rfl, rfl, rfl, rfl⟩

theorem frameEq_over_start_runs (m : MatchState) (x : ℕ) :
    FrameEq { m with over_start_runs := x } m := ⟨rfl, rfl, rfl, rfl⟩

theorem updBatting_none (m : MatchState) (f : Team → Team)
    (h : m.batting_side = none) : m.updBatting f = m := by
  unfold MatchState.updBatting
  rw [h]

theorem battingWickets_none (m : MatchState) (h : m.batting_side = none) :
    m.battingWickets = 0 := by
  unfold MatchState.battingWickets MatchState.battingTeam
  rw [h]
  rfl

theorem availableBatsmen_none (m : MatchState) (h : m.batting_side = none) :
    m.availableBatsmen = [] := by
  unfold MatchState.availableBatsmen
  rw [h]

theorem battingWickets_updBatting_succ (m : MatchState) (s : Bool)
    (h : m.batting_side = some s) :
    (m.updBatting (fun u => { u with wickets := u.wickets + 1 })).battingWickets =
      m.battingWickets + 1 := by
  unfold MatchState.updBatting
  rw [h]
  unfold MatchState.battingWickets MatchState.battingTeam
  rw [batting_side_setSide, h]
  simp only [Option.map_some', Option.getD_some, getSide_setSide]

theorem batting_side_updBatting (m : MatchState) (f : Team → Team) :
    (m.updBatting f).batting_side = m.batting_side :=
  (updBatting_frame m f).1

theorem batting_side_updBowler (m : MatchState) (f : Player → Player) :
    (m.updBowler f).batting_side = m.batting_side :=
  (updBowler_frame m f).2.2.1

theorem battingWickets_updBatting_succ_le (m : MatchState) :
    (m.updBatting (fun u => { u with wickets := u.wickets + 1 })).battingWickets =
        m.battingWickets ∨
    (m.updBatting (fun u => { u with wickets := u.wickets + 1 })).battingWickets =
        m.battingWickets + 1 := by
  rcases hb : m.batting_side with _ | s
  · rw [updBatting_none _ _ hb]
    exact Or.inl rfl
  · exact Or.inr (battingWickets_updBatting_succ m s hb)

theorem targetCheck_conclusions (target : Option ℕ) (over ball : ℕ)
    (m X : MatchState) (emits : List Emission) (hF : FrameEq X m) :
    (ballTargetCheck target over ball X emits).state.target_score = m.target_score ∧
    (ballTargetCheck target over ball X emits).state.team1_score = m.team1_score ∧
    (ballTargetCheck target over ball X emits).state.total_overs = m.total_overs ∧
    (ballTargetCheck target over ball X emits).state.battingWickets ≤
      m.battingWickets + 1 ∧
    ((ballTargetCheck target over ball X emits).allOut = false →
      (ballTargetCheck target over ball X emits).state.battingWickets =
        m.battingWickets ∨
      (ballTargetCheck target over ball X emits).state.battingWickets ≤ 9) ∧
    ((ballTargetCheck target over ball X emits).allOut = true →
      10 ≤ (ballTargetCheck target over ball X emits).state.battingWickets ∨
      (ballTargetCheck target over ball X emits).noBatsman = true) ∧
    ((ballTargetCheck target over ball X emits).targetReached = true →
      ∃ t, target = some t ∧ t ≠ 0 ∧
        t ≤ (ballTargetCheck target over ball X emits).state.battingScore) := by
  obtain ⟨hst, hao, hnb, htr⟩ := ballTargetCheck_spec target over ball X emits
  refine ⟨by rw [hst]; exact hF.2.1, by rw [hst]; exact hF.2.2.1,
    by rw [hst]; exact hF.2.2.2, by rw [hst, hF.1]; omega,
    fun _ => Or.inl (by rw [hst]; exact hF.1),
    fun h => absurd h (by rw [hao]; simp),
    fun h => ?_⟩
  obtain ⟨t, ht, ht0, hts⟩ := htr h
  exact ⟨t, ht, ht0, by rw [hst]; exact hts⟩

theorem targetCheck_conclusions_le (target : Option ℕ) (over ball : ℕ)
    (m X : MatchState) (emits : List Emission)
    (hw : X.battingWickets ≤ m.battingWickets + 1) (h9 : X.battingWickets ≤ 9)
    (hts : X.target_score = m.target_score) (ht1 : X.team1_score = m.team1_score)
    (htov : X.total_overs = m.total_overs) :
    (ballTargetCheck target over ball X emits).state.target_score = m.target_score ∧
    (ballTargetCheck target over ball X emits).state.team1_score = m.team1_score ∧
    (ballTargetCheck target over ball X emits).state.total_overs = m.total_overs ∧
    (ballTargetCheck target over ball X emits).state.battingWickets ≤
      m.battingWickets + 1 ∧
    ((ballTargetCheck target over ball X emits).allOut = false →
      (ballTargetCheck target over ball X emits).state.battingWickets =
        m.battingWickets ∨
      (ballTargetCheck target over ball X emits).state.battingWickets ≤ 9) ∧
    ((ballTargetCheck target over ball X emits).allOut = true →
      10 ≤ (ballTargetCheck target over ball X emits).state.battingWickets ∨
      (ballTargetCheck target over ball X emits).noBatsman = true) ∧
    ((ballTargetCheck target over ball X emits).targetReached = true →
      ∃ t, target = some t ∧ t ≠ 0 ∧
        t ≤ (ballTargetCheck target over ball X emits).state.battingScore) := by
  obtain ⟨hst, hao, hnb, htr⟩ := ballTargetCheck_spec target over ball X emits
  refine ⟨by rw [hst]; exact hts, by rw [hst]; exact ht1,
    by rw [hst]; exact htov, by rw [hst]; omega,
    fun _ => Or.inr (by rw [hst]; exact h9),
    fun h => absurd h (by rw [hao]; simp),
    fun h => ?_⟩
  obtain ⟨t, ht, ht0, hts2⟩ := htr h
  exact ⟨t, ht, ht0, by rw [hst]; exact hts2⟩

theorem frameEq_ite (c : Prop) [Decidable c] (a b m : MatchState)
    (h1 : FrameEq a m) (h2 : FrameEq b m) : FrameEq (if c then a else b) m := by
  split
  · exact h1
  · exact h2

theorem ballIter_spec (target : Option ℕ) (over ball : ℕ) (o : BallOutcome)
    (m : MatchState) :
    (ballIter target over ball o m).state.target_score = m.target_score ∧
    (ballIter target over ball o m).state.team1_score = m.team1_score ∧
    (ballIter target over ball o m).state.total_overs = m.total_overs ∧
    (ballIter target over ball o m).state.battingWickets ≤ m.battingWickets + 1 ∧
    ((ballIter target over ball o m).allOut = false →
      (ballIter target over ball o m).state.battingWickets = m.battingWickets ∨
      (ballIter target over ball o m).state.battingWickets ≤ 9) ∧
    ((ballIter target over ball o m).allOut = true →
      10 ≤ (ballIter target over ball o m).state.battingWickets ∨
      (ballIter target over ball o m).noBatsman = true) ∧
    ((ballIter target over ball o m).targetReached = true →
      ∃ t, target = some t ∧ t ≠ 0 ∧
        t ≤ (ballIter target over ball o m).state.battingScore) := by
  have hA : FrameEq (m.updBatting fun t => { t with balls := over * 6 + ball }) m :=
    frameEq_updBatting _ _ (fun u => rfl)
  have hAbs : (m.updBatting fun t => { t with balls := over * 6 + ball }).batting_side
      = m.batting_side := batting_side_updBatting _ _
  dsimp only [ballIter]
  generalize hg : m.updBatting (fun t => { t with balls := over * 6 + ball }) = mA
  rw [hg] at hA hAbs
  rcases hsb : mA.simulateBallStats o with ⟨evOpt, m1⟩
  have h1 : FrameEq m1 m := by
    have h := frameEq_simulateBallStats mA o
    rw [hsb] at h
    exact h.trans' hA
  have hbs1 : m1.batting_side = m.batting_side := by
    have h := (simulateBallStats_frame mA o).2.2.1
    rw [hsb] at h
    exact h.trans hAbs
  rcases evOpt with _ | ⟨oc, nm⟩
  · dsimp only
    exact ⟨h1.2.1, h1.2.2.1, h1.2.2.2, by rw [h1.1]; omega,
      fun _ => Or.inl h1.1, fun h => Bool.noConfusion h, fun h => Bool.noConfusion h⟩
  · dsimp only
    cases oc with
    | dot =>
        dsimp only
        refine targetCheck_conclusions _ _ _ m _ _ ?_
        refine FrameEq.trans' (frameEq_updBowler _ _) ?_
        exact FrameEq.trans' (frameEq_partnership_balls m1 _) h1
    | runs n =>
        dsimp only
        refine targetCheck_conclusions _ _ _ m _ _ ?_
        refine FrameEq.trans' (frameEq_updBowler _ _) ?_
        refine FrameEq.trans' (frameEq_current_partnership _ _) ?_
        refine FrameEq.trans' (frameEq_updBatting _ _ (fun u => rfl)) ?_
        refine FrameEq.trans'
          (frameEq_ite _ _ _ _ (frameEq_swapBatsmen _) (FrameEq.rfl' _)) ?_
        exact FrameEq.trans' (frameEq_partnership_balls m1 _) h1
    | boundary4 =>
        dsimp only
        refine targetCheck_conclusions _ _ _ m _ _ ?_
        refine FrameEq.trans' (frameEq_updBowler _ _) ?_
        refine FrameEq.trans' (frameEq_current_partnership _ _) ?_
        refine FrameEq.trans' (frameEq_updBatting _ _ (fun u => rfl)) ?_
        exact FrameEq.trans' (frameEq_partnership_balls m1 _) h1
    | boundary6 =>
        dsimp only
        refine targetCheck_conclusions _ _ _ m _ _ ?_
        refine FrameEq.trans' (frameEq_updBowler _ _) ?_
        refine FrameEq.trans' (frameEq_current_partnership _ _) ?_
        refine FrameEq.trans' (frameEq_updBatting _ _ (fun u => rfl)) ?_
        exact FrameEq.trans' (frameEq_partnership_balls m1 _) h1
    | wicket d fd =>
        dsimp only
        have h2F : FrameEq ({ m1 with partnership_balls := m1.partnership_balls + 1 }
            : MatchState) m := (frameEq_partnership_balls m1 _).trans' h1
        have h5 := battingWickets_updBatting_succ_le
          ({ m1 with partnership_balls := m1.partnership_balls + 1 } : MatchState)
        have h5fr := updBatting_frame
          ({ m1 with partnership_balls := m1.partnership_balls + 1 } : MatchState)
          (fun u => { u with wickets := u.wickets + 1 })
        set m5 := ({ m1 with partnership_balls := m1.partnership_balls + 1 }
            : MatchState).updBatting (fun u => { u with wickets := u.wickets + 1 })
          with hm5
        have h6F := frameEq_updBowler m5
          (fun p => { p with wickets := p.wickets + 1, balls_bowled := p.balls_bowled + 1 })
        set m6 := m5.updBowler
          (fun p => { p with wickets := p.wickets + 1, balls_bowled := p.balls_bowled + 1 })
          with hm6
        have hw6 : m6.battingWickets = m.battingWickets ∨
            m6.battingWickets = m.battingWickets + 1 := by
          rw [h6F.1, ← h2F.1]
          exact h5
        have hts6 : m6.target_score = m.target_score :=
          (h6F.2.1.trans h5fr.2.2.2.2.1).trans h2F.2.1
        have ht16 : m6.team1_score = m.team1_score :=
          (h6F.2.2.1.trans h5fr.2.2.2.2.2.1).trans h2F.2.2.1
        have htov6 : m6.total_overs = m.total_overs :=
          (h6F.2.2.2.trans h5fr.2.2.2.2.2.2).trans h2F.2.2.2
        set m7 := ({ m6 with fall_of_wickets := m6.fall_of_wickets ++
          [{ score := m6.battingScore, wicket := m6.battingWickets, over := over,
             ball := ball, player_out := nm, bowler := m6.currentBowlerName,
             dismissal_type := d, partnership := m6.current_partnership,
             partnership_balls := m6.partnership_balls }] } : MatchState) with hm7
        have h7F : FrameEq m7 m6 := by
          rw [hm7]
          exact frameEq_fall_of_wickets m6 _
        have hw7 : m7.battingWickets = m.battingWickets ∨
            m7.battingWickets = m.battingWickets + 1 := by
          rw [h7F.1]
          exact hw6
        have hts7 : m7.target_score = m.target_score := h7F.2.1.trans hts6
        have ht17 : m7.team1_score = m.team1_score := h7F.2.2.1.trans ht16
        have htov7 : m7.total_overs = m.total_overs := h7F.2.2.2.trans htov6
        split_ifs with h10
        · refine ⟨hts7, ht17, htov7, ?_, fun h => by simp at h,
            fun _ => Or.inl h10, fun h => by simp at h⟩
          show m7.battingWickets ≤ m.battingWickets + 1
          omega
        · rcases hav : m7.availableBatsmen with _ | ⟨nb, nrest⟩
          · dsimp only
            refine ⟨hts7, ht17, htov7, ?_, fun h => by simp at h,
              fun _ => Or.inr rfl, fun h => by simp at h⟩
            show m7.battingWickets ≤ m.battingWickets + 1
            omega
          · dsimp only
            have h9F : FrameEq ({ m7.replaceOutBatsman nm nb.id with
                current_partnership := 0, partnership_balls := 0 } : MatchState) m7 :=
              (frameEq_partnership _ 0 0).trans' (frameEq_replaceOutBatsman _ _ _)
            refine targetCheck_conclusions_le _ _ _ m _ _ ?_ ?_ ?_ ?_ ?_
            · rw [h9F.1]
              show m7.battingWickets ≤ m.battingWickets + 1
              omega
            · rw [h9F.1]
              show m7.battingWickets ≤ 9
              omega
            · exact h9F.2.1.trans hts7
            · exact h9F.2.2.1.trans ht17
            · exact h9F.2.2.2.trans htov7

theorem overBalls_spec (target : Option ℕ) (oracle : ℕ → BallOutcome) (over : ℕ)
    (k : ℕ) : ∀ (ball : ℕ) (m : MatchState) (acc : List Emission),
    (overBalls target oracle over k ball m acc).state.target_score = m.target_score ∧
    (overBalls target oracle over k ball m acc).state.team1_score = m.team1_score ∧
    (overBalls target oracle over k ball m acc).state.total_overs = m.total_overs ∧
    (m.battingWickets ≤ 9 →
      (overBalls target oracle over k ball m acc).state.battingWickets ≤ 10 ∧
      ((overBalls target oracle over k ball m acc).allOut = false →
        (overBalls target oracle over k ball m acc).targetReached = false →
        (overBalls target oracle over k ball m acc).state.battingWickets ≤ 9)) ∧
    ((overBalls target oracle over k ball m acc).allOut = true →
      10 ≤ (overBalls target oracle over k ball m acc).state.battingWickets ∨
      (overBalls target oracle over k ball m acc).noBatsman = true) ∧
    ((overBalls target oracle over k ball m acc).targetReached = true →
      ∃ t, target = some t ∧ t ≠ 0 ∧
        t ≤ (overBalls target oracle over k ball m acc).state.battingScore) := by
  induction k with
  | zero =>
      intro ball m acc
      dsimp only [overBalls]
      exact ⟨rfl, rfl, rfl, fun hw => ⟨by omega, fun _ _ => hw⟩,
        fun h => by simp at h, fun h => by simp at h⟩
  | succ k ih =>
      intro ball m acc
      have spec := ballIter_spec target over ball (oracle (over * 6 + ball)) m
      dsimp only [overBalls]
      split_ifs with hbr
      · dsimp only
        refine ⟨spec.1, spec.2.1, spec.2.2.1, fun hw => ⟨?_, fun h1 h2 => ?_⟩,
          spec.2.2.2.2.2.1, spec.2.2.2.2.2.2⟩
        · have := spec.2.2.2.1
          omega
        · rw [h1, h2] at hbr
          simp at hbr
      · have hflags : (ballIter target over ball (oracle (over * 6 + ball))
            m).allOut = false ∧
            (ballIter target over ball (oracle (over * 6 + ball))
              m).targetReached = false := by
          constructor <;> (revert hbr; cases (ballIter target over ball
            (oracle (over * 6 + ball)) m).allOut <;>
            cases (ballIter target over ball (oracle (over * 6 + ball))
              m).targetReached <;> simp)
        obtain ⟨hao, htr⟩ := hflags
        have IH := ih (ball + 1)
          (ballIter target over ball (oracle (over * 6 + ball)) m).state
          (acc ++ (ballIter target over ball (oracle (over * 6 + ball)) m).emits)
        refine ⟨IH.1.trans spec.1, IH.2.1.trans spec.2.1, IH.2.2.1.trans spec.2.2.1,
          fun hw => ?_, IH.2.2.2.2.1, IH.2.2.2.2.2⟩
        have hst9 : (ballIter target over ball (oracle (over * 6 + ball))
            m).state.battingWickets ≤ 9 := by
          rcases spec.2.2.2.2.1 hao with h | h <;> omega
        exact IH.2.2.2.1 hst9

theorem chooseBowler_frame (c : ℕ) (m : MatchState) :
    FrameEq (chooseBowler c m) m ∧
    (chooseBowler c m).battingScore = m.battingScore := by
  unfold chooseBowler
  rcases hbs : m.bowling_side with _ | s
  · exact ⟨FrameEq.rfl' m, rfl⟩
  · dsimp only
    split
    · exact ⟨FrameEq.rfl' m, rfl⟩
    · exact ⟨⟨rfl, rfl, rfl, rfl⟩, rfl⟩

theorem overIter_spec (target : Option ℕ) (oracle : ℕ → BallOutcome)
    (bowlerChoice : ℕ → ℕ) (over : ℕ) (m : MatchState) :
    (overIter target oracle bowlerChoice over m).state.target_score =
      m.target_score ∧
    (overIter target oracle bowlerChoice over m).state.team1_score =
      m.team1_score ∧
    (overIter target oracle bowlerChoice over m).state.total_overs =
      m.total_overs ∧
    (m.battingWickets ≤ 9 →
      (overIter target oracle bowlerChoice over m).state.battingWickets ≤ 10 ∧
      ((overIter target oracle bowlerChoice over m).allOut = false →
        (overIter target oracle bowlerChoice over m).targetReached = false →
        (overIter target oracle bowlerChoice over m).state.battingWickets ≤ 9)) ∧
    ((overIter target oracle bowlerChoice over m).allOut = true →
      10 ≤ (overIter target oracle bowlerChoice over m).state.battingWickets ∨
      (overIter target oracle bowlerChoice over m).noBatsman = true) ∧
    ((overIter target oracle bowlerChoice over m).targetReached = true →
      ∃ t, target = some t ∧ t ≠ 0 ∧
        t ≤ (overIter target oracle bowlerChoice over m).state.battingScore) := by
  dsimp only [overIter]
  have hA : FrameEq (m.updBatting fun t => { t with overs := over }) m :=
    frameEq_updBatting _ _ (fun u => rfl)
  generalize hg1 : m.updBatting (fun t => { t with overs := over }) = mA
  rw [hg1] at hA
  have hB := chooseBowler_frame (bowlerChoice over) mA
  generalize hg2 : chooseBowler (bowlerChoice over) mA = mB
  rw [hg2] at hB
  have hBF : FrameEq mB m := hB.1.trans' hA
  have hC : FrameEq ({ mB with over_start_runs := mB.currentBowlerConceded }
      : MatchState) m := (frameEq_over_start_runs mB _).trans' hBF
  generalize hg3 : ({ mB with over_start_runs := mB.currentBowlerConceded }
      : MatchState) = mC
  rw [hg3] at hC
  have hS := overBalls_spec target oracle over 6 0 mC
    [Emission.msg (MatchEvent.overStart (over + 1) mC.currentBowlerName)]
  generalize hg4 : overBalls target oracle over 6 0 mC
    [Emission.msg (MatchEvent.overStart (over + 1) mC.currentBowlerName)] = st
  rw [hg4] at hS
  have h4F : FrameEq (st.state.updBowler
      (fun p => { p with overs_bowled := p.overs_bowled + 1 })) st.state :=
    frameEq_updBowler _ _
  have h4S : (st.state.updBowler
      (fun p => { p with overs_bowled := p.overs_bowled + 1 })).battingScore =
      st.state.battingScore := (updBowler_frame _ _).2.1
  generalize hg5 : st.state.updBowler
    (fun p => { p with overs_bowled := p.overs_bowled + 1 }) = m4
  rw [hg5] at h4F h4S
  have h5F : FrameEq (if m4.currentBowlerConceded - m4.over_start_runs = 0 then
      m4.updBowler (fun p => { p with maidens := p.maidens + 1 }) else m4) m4 :=
    frameEq_ite _ _ _ _ (frameEq_updBowler _ _) (FrameEq.rfl' _)
  have h5S : (if m4.currentBowlerConceded - m4.over_start_runs = 0 then
      m4.updBowler (fun p => { p with maidens := p.maidens + 1 }) else m4).battingScore =
      m4.battingScore := by
    split
    · exact (updBowler_frame _ _).2.1
    · rfl
  generalize hg6 : (if m4.currentBowlerConceded - m4.over_start_runs = 0 then
      m4.updBowler (fun p => { p with maidens := p.maidens + 1 }) else m4) = m5
  rw [hg6] at h5F h5S
  have h5Fc : FrameEq m5 st.state := h5F.trans' h4F
  have h5Sc : m5.battingScore = st.state.battingScore := h5S.trans h4S
  by_cases hbr : (st.allOut || st.targetReached) = true
  · rw [if_pos hbr]
    dsimp only
    refine ⟨h5Fc.2.1.trans (hS.1.trans hC.2.1),
      h5Fc.2.2.1.trans (hS.2.1.trans hC.2.2.1),
      h5Fc.2.2.2.trans (hS.2.2.1.trans hC.2.2.2), fun hw => ?_, ?_, ?_⟩
    · have hw9 : mC.battingWickets ≤ 9 := by rw [hC.1]; omega
      have := hS.2.2.2.1 hw9
      constructor
      · rw [h5Fc.1]
        omega
      · intro h1 h2
        rw [h1, h2] at hbr
        simp at hbr
    · intro h
      rcases hS.2.2.2.2.1 h with h2 | h2
      · exact Or.inl (by rw [h5Fc.1]; omega)
      · exact Or.inr h2
    · intro h
      obtain ⟨t, ht, ht0, hts⟩ := hS.2.2.2.2.2 h
      exact ⟨t, ht, ht0, by rw [h5Sc]; exact hts⟩
  · rw [if_neg hbr]
    have hflags : st.allOut = false ∧ st.targetReached = false := by
      constructor <;> (revert hbr; cases st.allOut <;> cases st.targetReached <;> simp)
    obtain ⟨hao, htr⟩ := hflags
    dsimp only
    refine ⟨(frameEq_swapBatsmen m5).2.1.trans
        (h5Fc.2.1.trans (hS.1.trans hC.2.1)),
      (frameEq_swapBatsmen m5).2.2.1.trans
        (h5Fc.2.2.1.trans (hS.2.1.trans hC.2.2.1)),
      (frameEq_swapBatsmen m5).2.2.2.trans
        (h5Fc.2.2.2.trans (hS.2.2.1.trans hC.2.2.2)), fun hw => ?_,
      fun h => by simp at h, fun h => by simp at h⟩
    have hw9 : mC.battingWickets ≤ 9 := by rw [hC.1]; omega
    have h1 := (hS.2.2.2.1 hw9).2 hao htr
    have hsw : (swapBatsmen m5).battingWickets = m5.battingWickets :=
      (frameEq_swapBatsmen m5).1
    constructor
    · rw [hsw, h5Fc.1]
      omega
    · intro _ _
      rw [hsw, h5Fc.1]
      omega

theorem inningsLoop_spec (target : Option ℕ) (oracle : ℕ → BallOutcome)
    (bowlerChoice : ℕ → ℕ) (fuel : ℕ) :
    ∀ (over : ℕ) (m : MatchState) (acc : List Emission),
    (inningsLoop target oracle bowlerChoice fuel over m acc).state.target_score =
      m.target_score ∧
    (inningsLoop target oracle bowlerChoice fuel over m acc).state.team1_score =
      m.team1_score ∧
    (m.battingWickets ≤ 9 →
      (inningsLoop target oracle bowlerChoice fuel over m acc).state.battingWickets
        ≤ 10) ∧
    ((inningsLoop target oracle bowlerChoice fuel over m acc).allOut = true →
      10 ≤ (inningsLoop target oracle bowlerChoice fuel over m
        acc).state.battingWickets ∨
      (inningsLoop target oracle bowlerChoice fuel over m acc).noBatsman = true) ∧
    ((inningsLoop target oracle bowlerChoice fuel over m acc).targetReached = true →
      ∃ t, target = some t ∧ t ≠ 0 ∧
        t ≤ (inningsLoop target oracle bowlerChoice fuel over m
          acc).state.battingScore) ∧
    ((inningsLoop target oracle bowlerChoice fuel over m acc).allOut = false →
      (inningsLoop target oracle bowlerChoice fuel over m acc).targetReached =
        false →
      (inningsLoop target oracle bowlerChoice fuel over m acc).oversDone =
        over + fuel) := by
  induction fuel with
  | zero =>
      intro over m acc
      dsimp only [inningsLoop]
      exact ⟨rfl, rfl, fun hw => by omega, fun h => by simp at h,
        fun h => by simp at h, fun _ _ => rfl⟩
  | succ k ih =>
      intro over m acc
      dsimp only [inningsLoop]
      have spec := overIter_spec target oracle bowlerChoice over m
      by_cases hbr : ((overIter target oracle bowlerChoice over m).allOut ||
          (overIter target oracle bowlerChoice over m).targetReached) = true
      · rw [if_pos hbr]
        dsimp only
        refine ⟨spec.1, spec.2.1, fun hw => ?_, spec.2.2.2.2.1, spec.2.2.2.2.2,
          fun h1 h2 => ?_⟩
        · exact (spec.2.2.2.1 hw).1
        · rw [h1, h2] at hbr
          simp at hbr
      · rw [if_neg hbr]
        have hao : (overIter target oracle bowlerChoice over m).allOut = false := by
          revert hbr
          cases (overIter target oracle bowlerChoice over m).allOut <;> cases (overIter target oracle bowlerChoice over m).targetReached <;> simp
        have htr : (overIter target oracle bowlerChoice over m).targetReached = false := by
          revert hbr
          cases (overIter target oracle bowlerChoice over m).allOut <;> cases (overIter target oracle bowlerChoice over m).targetReached <;> simp
        have IH := ih (over + 1) (overIter target oracle bowlerChoice over m).state
          (acc ++ (overIter target oracle bowlerChoice over m).emits)
        refine ⟨IH.1.trans spec.1, IH.2.1.trans spec.2.1, fun hw => ?_,
          IH.2.2.2.1, IH.2.2.2.2.1, fun h1 h2 => ?_⟩
        · have h9 := (spec.2.2.2.1 hw).2 hao htr
          exact IH.2.2.1 h9
        · have := IH.2.2.2.2.2 h1 h2
          omega

theorem simulateInnings_preserves (m : MatchState) (oracle : ℕ → BallOutcome)
    (bowlerChoice : ℕ → ℕ) (target : Option ℕ) :
    (m.simulateInnings oracle bowlerChoice target).state.target_score =
      m.target_score ∧
    (m.simulateInnings oracle bowlerChoice target).state.team1_score =
      m.team1_score := by
  unfold MatchState.simulateInnings
  rcases hbs : m.batting_side with _ | bs
  · exact ⟨rfl, rfl⟩
  · rcases hws : m.bowling_side with _ | ws
    · exact ⟨rfl, rfl⟩
    · dsimp only
      split_ifs <;>
        first
          | exact ⟨rfl, rfl⟩
          | exact ⟨((inningsLoop_spec _ _ _ _ 0 _ _).1).trans rfl,
              ((inningsLoop_spec _ _ _ _ 0 _ _).2.1).trans rfl⟩

theorem battingWickets_eq_side (m : MatchState) (s : Bool)
    (h : m.batting_side = some s) :
    m.battingWickets = (m.getSide s).wickets := by
  unfold MatchState.battingWickets MatchState.battingTeam
  rw [h]
  rfl

theorem inningsRun_conclusions (target : Option ℕ) (oracle : ℕ → BallOutcome)
    (bowlerChoice : ℕ → ℕ) (X : MatchState) (tov : ℕ) (acc : List Emission)
    (hw : X.battingWickets ≤ 9) (htov : X.total_overs = tov) :
    (inningsLoop target oracle bowlerChoice X.total_overs 0 X
      acc).state.battingWickets ≤ 10 ∧
    ((inningsLoop target oracle bowlerChoice X.total_overs 0 X acc).allOut = true ∨
      (inningsLoop target oracle bowlerChoice X.total_overs 0 X
        acc).targetReached = true ∨
      (inningsLoop target oracle bowlerChoice X.total_overs 0 X acc).oversDone =
        tov) ∧
    ((inningsLoop target oracle bowlerChoice X.total_overs 0 X acc).allOut = true →
      10 ≤ (inningsLoop target oracle bowlerChoice X.total_overs 0 X
        acc).state.battingWickets ∨
      (inningsLoop target oracle bowlerChoice X.total_overs 0 X acc).noBatsman =
        true) ∧
    ((inningsLoop target oracle bowlerChoice X.total_overs 0 X
        acc).targetReached = true →
      ∃ t, target = some t ∧ t ≠ 0 ∧
        t ≤ (inningsLoop target oracle bowlerChoice X.total_overs 0 X
          acc).state.battingScore) := by
  have spec := inningsLoop_spec target oracle bowlerChoice X.total_overs 0 X acc
  refine ⟨spec.2.2.1 hw, ?_, spec.2.2.2.1, spec.2.2.2.2.1⟩
  cases hao : (inningsLoop target oracle bowlerChoice X.total_overs 0 X acc).allOut
  · cases htr : (inningsLoop target oracle bowlerChoice X.total_overs 0 X
        acc).targetReached
    · refine Or.inr (Or.inr ?_)
      have h := spec.2.2.2.2.2 hao htr
      rw [h, ← htov]
      omega
    · exact Or.inr (Or.inl rfl)
  · exact Or.inl rfl

theorem chase_target_formula (X : MatchState) (o2 : ℕ → BallOutcome)
    (b2 : ℕ → ℕ) (t : ℕ) (hX : X.target_score = some (X.team1_score + 1)) :
    (X.simulateInnings o2 b2 (some t)).state.target_score =
      some ((X.simulateInnings o2 b2 (some t)).state.team1_score + 1) := by
  have hp := simulateInnings_preserves X o2 b2 (some t)
  rw [hp.1, hp.2, hX]

theorem simulateMatchCore_target (m0 : MatchState) (o1 o2 : ℕ → BallOutcome)
    (b1 b2 : ℕ → ℕ) :
    (m0.simulateMatchCore o1 o2 b1 b2).1.target_score =
      some ((m0.simulateMatchCore o1 o2 b1 b2).1.team1_score + 1) := by
  unfold MatchState.simulateMatchCore
  dsimp only
  exact chase_target_formula _ o2 b2 _ rfl

/-- C4: in every simulated innings the batting team's wickets never exceed
10; the innings loop exits exactly on all-out (10 wickets, or no replacement
batsman remaining), on the target being reached (second innings only, with
the target positive and reached by the final score), or after all
`total_overs` overs; the second-innings target is the first-innings final
score plus one; and the all-out/target exits may occur mid-over (witnessed
by a concrete chase that ends on the first ball of an over). -/
theorem innings_wickets_and_termination :
    (∀ (m : MatchState) (oracle : ℕ → BallOutcome) (bowlerChoice : ℕ → ℕ)
      (target : Option ℕ) (bs ws : Bool),
      m.batting_side = some bs → m.bowling_side = some ws →
      2 ≤ (m.getSide bs).players.length → 1 ≤ (m.getSide ws).players.length →
      m.battingWickets ≤ 9 →
      (m.simulateInnings oracle bowlerChoice target).state.battingWickets ≤ 10 ∧
      ((m.simulateInnings oracle bowlerChoice target).allOut = true ∨
        (m.simulateInnings oracle bowlerChoice target).targetReached = true ∨
        (m.simulateInnings oracle bowlerChoice target).oversDone = m.total_overs) ∧
      ((m.simulateInnings oracle bowlerChoice target).allOut = true →
        10 ≤ (m.simulateInnings oracle bowlerChoice target).state.battingWickets ∨
        (m.simulateInnings oracle bowlerChoice target).noBatsman = true) ∧
      ((m.simulateInnings oracle bowlerChoice target).targetReached = true →
        ∃ t, target = some t ∧ t ≠ 0 ∧
          t ≤ (m.simulateInnings oracle bowlerChoice target).state.battingScore)) ∧
    (∀ (m0 : MatchState) (mep : Bool) (o1 o2 : ℕ → BallOutcome) (b1 b2 : ℕ → ℕ),
      (m0.simulateMatchRun mep o1 o2 b1 b2).state.target_score =
        some ((m0.simulateMatchRun mep o1 o2 b1 b2).state.team1_score + 1)) ∧
    ((chaseState.simulateInnings allFours zeroChoice (some 1)).targetReached =
        true ∧
      ((chaseState.simulateInnings allFours zeroChoice
        (some 1)).state.battingBallsCount + 1) % 6 ≠ 0) := by
  refine ⟨?_, ?_, ?_⟩
  · intro m oracle bowlerChoice target bs ws hbs hws hlen2 hlen1 hw9
    have hw9s : (m.getSide bs).wickets ≤ 9 := by
      rw [← battingWickets_eq_side m bs hbs]
      exact hw9
    unfold MatchState.simulateInnings
    rw [hbs, hws]
    dsimp only
    split_ifs with hguard
    · exfalso
      simp only [Bool.or_eq_true, decide_eq_true_eq] at hguard
      omega
    all_goals
      exact inningsRun_conclusions target oracle bowlerChoice _
        m.total_overs _
        (by rw [battingWickets_eq_side _ bs (by first | rfl | exact hbs)]; exact hw9s) rfl
  · intro m0 mep o1 o2 b1 b2
    have h := simulateMatchCore_target m0 o1 o2 b1 b2
    unfold MatchState.simulateMatchRun
    dsimp only
    cases mep <;> exact h
  · constructor
    · decide
    · decide

theorem innings_wickets_witness :
    (chaseState.simulateInnings allDots zeroChoice none).state.battingWickets
      ≤ 10 := by
  have h := innings_wickets_and_termination.1 chaseState allDots zeroChoice none
    false true (by decide) (by decide) (by decide) (by decide) (by decide)
  exact h.1
